import Mathlib

/-!
Verification development for the Service Fusion → GoHighLevel sync service.

The Python sources are shallowly embedded: timestamps become `Int` seconds
since the Unix epoch, `datetime.fromisoformat` becomes `parseIsoNaive`
(returning `none` where Python raises `ValueError`), the configured
`ZoneInfo` timezone becomes an abstract offset function `Int → Int`
(UTC offset in seconds at a given local wall-clock time), tz-aware
conversion `replace(tzinfo=..).astimezone(utc)` becomes subtraction of
that offset, and every HTTP side effect of the sync flow is reified as an
`Effect` value interpreted against an explicit `World` of remote state.
-/

/-- Python string `replace` helper: `matchHead pat cs` is true when `pat`
is an initial segment of `cs`. -/
def matchHead : List Char → List Char → Bool
  | [], _ => true
  | _ :: _, [] => false
  | p :: ps, c :: cs => p == c && matchHead ps cs

/-- Fuel-driven worker for `pyReplace`; consumes at least one character per
step, so fuel equal to the input length suffices. -/
def pyReplaceAux (pat rep : List Char) : Nat → List Char → List Char
  | 0, cs => cs
  | _ + 1, [] => []
  | fuel + 1, c :: cs =>
    if pat ≠ [] ∧ matchHead pat (c :: cs) then
      rep ++ pyReplaceAux pat rep fuel (List.drop (pat.length - 1) cs)
    else
      c :: pyReplaceAux pat rep fuel cs

/-- Embedding of Python `str.replace(pat, rep)` (all occurrences,
left to right, non-overlapping). -/
def pyReplace (s pat rep : String) : String :=
  String.mk (pyReplaceAux pat.toList rep.toList s.toList.length s.toList)

/-- Value of an ASCII digit character, `none` otherwise. -/
def digitVal (c : Char) : Option Nat :=
  if c.isDigit then some (c.toNat - 48) else none

/-- Two-digit decimal field of an ISO timestamp. -/
def twoDig (a b : Char) : Option Nat := do
  let x ← digitVal a
  let y ← digitVal b
  pure (x * 10 + y)

/-- Four-digit decimal field (the year) of an ISO timestamp. -/
def fourDig (a b c d : Char) : Option Nat := do
  let x ← twoDig a b
  let y ← twoDig c d
  pure (x * 100 + y)

/-- Gregorian leap-year test, as in Python's `calendar`/`datetime`. -/
def isLeapYear (y : Nat) : Bool := y % 4 == 0 && (y % 100 != 0 || y % 400 == 0)

/-- Length of month `m` in year `y`. -/
def daysInMonth (y m : Nat) : Nat :=
  if m = 2 then (if isLeapYear y then 29 else 28)
  else if m = 4 ∨ m = 6 ∨ m = 9 ∨ m = 11 then 30
  else 31

/-- Days from 1970-01-01 to the civil date `y-m-d` (proleptic Gregorian,
the standard days-from-civil computation). -/
def daysSinceEpoch (y m d : Nat) : Int :=
  let yy := if m ≤ 2 then y - 1 else y
  let era := yy / 400
  let yoe := yy % 400
  let mp := (m + 9) % 12
  let doy := (153 * mp + 2) / 5 + (d - 1)
  let doe := yoe * 365 + yoe / 4 - yoe / 100 + doy
  ((era * 146097 + doe : Nat) : Int) - 719468

/-- Embedding of `datetime.fromisoformat` on a naive timestamp in the
canonical `YYYY-MM-DDTHH:MM:SS` shape (a space separator is also accepted).
Result is seconds since the epoch read as a naive wall-clock instant;
`none` models Python raising `ValueError`. -/
def parseIsoNaive (s : String) : Option Int :=
  match s.toList with
  | [y1, y2, y3, y4, q1, o1, o2, q2, d1, d2, qt, h1, h2, q3, i1, i2, q4, s1, s2] =>
    if q1 = '-' ∧ q2 = '-' ∧ (qt = 'T' ∨ qt = ' ') ∧ q3 = ':' ∧ q4 = ':' then do
      let y ← fourDig y1 y2 y3 y4
      let mo ← twoDig o1 o2
      let d ← twoDig d1 d2
      let h ← twoDig h1 h2
      let mi ← twoDig i1 i2
      let se ← twoDig s1 s2
      if 1 ≤ y ∧ 1 ≤ mo ∧ mo ≤ 12 ∧ 1 ≤ d ∧ d ≤ daysInMonth y mo ∧
          h ≤ 23 ∧ mi ≤ 59 ∧ se ≤ 59 then
        pure (daysSinceEpoch y mo d * 86400 + (h * 3600 + mi * 60 + se : Nat))
      else none
    else none
  | _ => none

/-- Python falsiness of an optional string: `None` and `""` are falsy. -/
def optStrFalsy : Option String → Bool
  | none => true
  | some s => s.isEmpty

/-- `contact_data["phone"] = phone` guarded by `if phone:` — keep the string
only when it is truthy. -/
def optTruthy : Option String → Option String
  | none => none
  | some s => if s.isEmpty then none else some s

/-- app/config.py `Settings`: the fields the sync logic reads.  Status
strings are the Service Fusion job/estimate vocabularies; stage strings are
GoHighLevel pipeline-stage identifiers. -/
structure Settings where
  ghl_sf_customer_id_field : String
  ghl_pipeline_id : String
  ghl_opportunity_crm_job_id_field : String
  ghl_stage_appointment_request : String
  ghl_stage_estimate_scheduled : String
  ghl_stage_estimate_sent : String
  ghl_stage_estimate_stop : String
  ghl_stage_canceled : String
  ghl_stage_job_scheduled : String
  ghl_stage_job_in_progress : String
  ghl_stage_review_referral : String
  sf_status_unscheduled : String
  sf_status_scheduled : String
  sf_status_dispatched : String
  sf_status_delayed : String
  sf_status_on_the_way : String
  sf_status_on_site : String
  sf_status_started : String
  sf_status_paused : String
  sf_status_resumed : String
  sf_status_completed : String
  sf_status_cancelled : String
  sf_status_job_closed : String
  sf_status_to_be_invoiced : String
  sf_status_invoiced : String
  sf_status_paid_in_full : String
  sf_status_partially_completed : String
  sf_status_archived : String
  sf_estimate_status_requested : String
  sf_estimate_status_scheduled : String
  sf_estimate_status_provided : String
  sf_estimate_status_accepted : String
  sf_estimate_status_won : String
  sf_estimate_status_lost : String
deriving DecidableEq

/-- The default values of `Settings` from app/config.py (environment
overrides absent). -/
def defaultSettings : Settings where
  ghl_sf_customer_id_field := ""
  ghl_pipeline_id := ""
  ghl_opportunity_crm_job_id_field := ""
  ghl_stage_appointment_request := ""
  ghl_stage_estimate_scheduled := ""
  ghl_stage_estimate_sent := ""
  ghl_stage_estimate_stop := ""
  ghl_stage_canceled := ""
  ghl_stage_job_scheduled := ""
  ghl_stage_job_in_progress := ""
  ghl_stage_review_referral := ""
  sf_status_unscheduled := "Unscheduled"
  sf_status_scheduled := "Scheduled"
  sf_status_dispatched := "Dispatched"
  sf_status_delayed := "Delayed"
  sf_status_on_the_way := "On The Way"
  sf_status_on_site := "On Site"
  sf_status_started := "Started"
  sf_status_paused := "Paused"
  sf_status_resumed := "Resumed"
  sf_status_completed := "Completed"
  sf_status_cancelled := "Cancelled"
  sf_status_job_closed := "Job Closed"
  sf_status_to_be_invoiced := "To be invoiced"
  sf_status_invoiced := "Invoiced"
  sf_status_paid_in_full := "Paid in Full"
  sf_status_partially_completed := "Partially Completed"
  sf_status_archived := "Archived"
  sf_estimate_status_requested := "Estimate Requested"
  sf_estimate_status_scheduled := "Estimate Scheduled"
  sf_estimate_status_provided := "Estimate Provided"
  sf_estimate_status_accepted := "Estimate Accepted"
  sf_estimate_status_won := "Estimate Won"
  sf_estimate_status_lost := "Lost"

/-- app/config.py `sf_to_ghl_stage_map`: the dict literal, in source order
(job statuses first, then estimate statuses). -/
def sf_to_ghl_stage_map (s : Settings) : List (String × String) :=
  [ (s.sf_status_unscheduled, s.ghl_stage_job_scheduled),
    (s.sf_status_cancelled, s.ghl_stage_canceled),
    (s.sf_status_scheduled, s.ghl_stage_job_scheduled),
    (s.sf_status_dispatched, s.ghl_stage_job_scheduled),
    (s.sf_status_partially_completed, s.ghl_stage_job_in_progress),
    (s.sf_status_delayed, s.ghl_stage_job_in_progress),
    (s.sf_status_on_the_way, s.ghl_stage_job_in_progress),
    (s.sf_status_on_site, s.ghl_stage_job_in_progress),
    (s.sf_status_started, s.ghl_stage_job_in_progress),
    (s.sf_status_paused, s.ghl_stage_job_in_progress),
    (s.sf_status_resumed, s.ghl_stage_job_in_progress),
    (s.sf_status_completed, s.ghl_stage_review_referral),
    (s.sf_estimate_status_requested, s.ghl_stage_estimate_scheduled),
    (s.sf_estimate_status_accepted, s.ghl_stage_estimate_stop),
    (s.sf_estimate_status_won, s.ghl_stage_estimate_stop),
    (s.sf_estimate_status_lost, s.ghl_stage_estimate_stop),
    (s.sf_estimate_status_provided, s.ghl_stage_estimate_sent) ]

/-- Python `dict.get`: with duplicate keys in a dict literal the last
binding wins, so look from the right. -/
def pyDictGet (l : List (String × String)) (k : String) : Option String :=
  (l.reverse.find? (fun kv => kv.1 == k)).map (fun kv => kv.2)

/-- The runtime configuration: settings plus the `ZoneInfo` timezone of the
Service Fusion tenant, abstracted to its UTC-offset function (seconds the
zone is ahead of UTC, as a function of the local wall-clock instant). -/
structure Config where
  settings : Settings
  tzOff : Int → Int

/-- `replace(tzinfo=sf_tz).astimezone(utc).replace(tzinfo=None)`: reading a
naive instant as zone-local wall-clock time and converting to naive UTC. -/
def sfLocalToUtcNaive (cfg : Config) (t : Int) : Int := t - cfg.tzOff t

/-- app/models/service_fusion.py `SFPhone`. -/
structure SFPhone where
  phone : Option String
deriving DecidableEq

/-- `SFPhone.normalized`: digits-only phone, `None` for a falsy phone. -/
def SFPhone.normalized (p : SFPhone) : Option String :=
  match p.phone with
  | none => none
  | some s => if s.isEmpty then none else some (String.mk (s.toList.filter Char.isDigit))

/-- app/models/service_fusion.py `SFEmail`. -/
structure SFEmail where
  email : Option String
deriving DecidableEq

/-- app/models/service_fusion.py `SFContact` (the fields the sync reads). -/
structure SFContact where
  fname : Option String
  lname : Option String
  is_primary : Option Bool
  phones : List SFPhone
  emails : List SFEmail
deriving DecidableEq

/-- `SFContact.primary_phone`: first phone, normalized. -/
def SFContact.primary_phone (c : SFContact) : Option String :=
  c.phones.head?.bind SFPhone.normalized

/-- `SFContact.primary_email`: first email address. -/
def SFContact.primary_email (c : SFContact) : Option String :=
  c.emails.head?.bind SFEmail.email

/-- app/models/service_fusion.py `SFCustomer` (the fields the sync reads). -/
structure SFCustomer where
  id : Int
  customer_name : String
  updated_at : String
  contacts : List SFContact
deriving DecidableEq

/-- `SFCustomer.primary_contact`: first contact marked primary (Python
truthiness: only `True` counts), else the first contact. -/
def SFCustomer.primary_contact (c : SFCustomer) : Option SFContact :=
  match c.contacts.find? (fun ct => ct.is_primary == some true) with
  | some ct => some ct
  | none => c.contacts.head?

/-- `SFCustomer.phone`: primary contact's normalized phone. -/
def SFCustomer.phone (c : SFCustomer) : Option String :=
  c.primary_contact.bind SFContact.primary_phone

/-- `SFCustomer.email`: primary contact's email. -/
def SFCustomer.email (c : SFCustomer) : Option String :=
  c.primary_contact.bind SFContact.primary_email

/-- `SFCustomer.updated_at_datetime`: strip the `+00:00` / `Z` suffix and
parse the remainder verbatim — no timezone conversion happens for
customers. -/
def SFCustomer.updated_at_datetime (c : SFCustomer) : Option Int :=
  parseIsoNaive (pyReplace (pyReplace c.updated_at "+00:00" "") "Z" "")

/-- app/models/service_fusion_jobs.py `SFJob` (the fields the sync reads). -/
structure SFJob where
  id : Int
  number : Option String
  customer_id : Int
  customer_name : Option String
  status : String
  updated_at : String
  created_at : Option String
deriving DecidableEq

/-- `SFJob.updated_at_datetime`: strip the lying `+00:00`, read the
wall-clock in the configured Service Fusion zone, convert to naive UTC. -/
def SFJob.updated_at_datetime (cfg : Config) (j : SFJob) : Option Int :=
  (parseIsoNaive (pyReplace j.updated_at "+00:00" "")).map (sfLocalToUtcNaive cfg)

/-- app/models/service_fusion_estimates.py `SFEstimate`. -/
structure SFEstimate where
  id : Int
  number : String
  customer_id : Int
  customer_name : String
  status : String
  updated_at : String
deriving DecidableEq

/-- `SFEstimate.updated_at_datetime`: same normalization as jobs. -/
def SFEstimate.updated_at_datetime (cfg : Config) (e : SFEstimate) : Option Int :=
  (parseIsoNaive (pyReplace e.updated_at "+00:00" "")).map (sfLocalToUtcNaive cfg)

/-!  app/utils/state.py `StateManager`.  The JSON state file is embedded as
`Option` of a string-keyed association list (`none` = file absent), and the
current wall-clock is an explicit `now` parameter in epoch seconds. -/

/-- Lookup in the parsed state file. -/
def stateGet (data : List (String × String)) (k : String) : Option String :=
  (data.find? (fun kv => kv.1 == k)).map (fun kv => kv.2)

/-- Shared body of the three cursor readers: missing file, missing or falsy
key, and an unparsable value all fall back to `now - 24h`. -/
def getPollTimeOrFallback (file : Option (List (String × String)))
    (now : Int) (key : String) : Int :=
  match file with
  | none => now - 24 * 3600
  | some data =>
    match stateGet data key with
    | none => now - 24 * 3600
    | some s =>
      if s.isEmpty then now - 24 * 3600
      else
        match parseIsoNaive s with
        | some t => t
        | none => now - 24 * 3600

/-- `StateManager.get_last_customer_poll_time` (key `last_sf_poll`). -/
def get_last_customer_poll_time (file : Option (List (String × String)))
    (now : Int) : Int :=
  getPollTimeOrFallback file now "last_sf_poll"

/-- `StateManager.get_last_job_poll_time` (key `last_job_poll`). -/
def get_last_job_poll_time (file : Option (List (String × String)))
    (now : Int) : Int :=
  getPollTimeOrFallback file now "last_job_poll"

/-- `StateManager.get_last_estimate_poll_time` (key `last_estimate_poll`). -/
def get_last_estimate_poll_time (file : Option (List (String × String)))
    (now : Int) : Int :=
  getPollTimeOrFallback file now "last_estimate_poll"

/-!  app/services/sf_client.py — the `get_updated_*` scan.  The paginated
upstream listing is embedded as the list of pages the API would serve
(`per_page = 50`, sorted `-updated_at` by assumption of the caller). -/

/-- Inner `for` loop of `get_updated_customers` / `_jobs` / `_estimates`
over one page: append records parsed strictly newer than `since`, skip
records whose timestamp fails to parse (the bad-record side channel), stop
at the first parsed record that is not strictly newer.  The Bool is true
when that early stop fired. -/
def pageScan (parse : α → Option Int) (since : Int) :
    List α → List α → List α × Bool
  | [], acc => (acc, false)
  | r :: rs, acc =>
    match parse r with
    | some t => if since < t then pageScan parse since rs (acc ++ [r]) else (acc, true)
    | none => pageScan parse since rs acc

/-- Outer `while len(updated) < max_results` loop of the `get_updated_*`
scans.  An early stop returns the accumulator untruncated; the
end-of-data exits (`not response.items`, short page, feed exhausted) and
the loop-condition exit return `updated[:max_results]`. -/
def getUpdatedScan (parse : α → Option Int) (since : Int) (maxResults : Nat) :
    List (List α) → List α → List α
  | [], acc => acc.take maxResults
  | items :: rest, acc =>
    if acc.length < maxResults then
      if items.isEmpty then acc.take maxResults
      else
        match pageScan parse since items acc with
        | (acc2, true) => acc2
        | (acc2, false) =>
          if items.length < 50 then acc2.take maxResults
          else getUpdatedScan parse since maxResults rest acc2
    else acc.take maxResults

/-- `ServiceFusionClient.get_updated_customers`. -/
def get_updated_customers (pages : List (List SFCustomer)) (since : Int)
    (maxResults : Nat) : List SFCustomer :=
  getUpdatedScan SFCustomer.updated_at_datetime since maxResults pages []

/-- `ServiceFusionClient.get_updated_jobs`. -/
def get_updated_jobs (cfg : Config) (pages : List (List SFJob)) (since : Int)
    (maxResults : Nat) : List SFJob :=
  getUpdatedScan (SFJob.updated_at_datetime cfg) since maxResults pages []

/-- `ServiceFusionClient.get_updated_estimates`. -/
def get_updated_estimates (cfg : Config) (pages : List (List SFEstimate))
    (since : Int) (maxResults : Nat) : List SFEstimate :=
  getUpdatedScan (SFEstimate.updated_at_datetime cfg) since maxResults pages []

/-!  The GoHighLevel side and the sync flow of app/main.py.  Remote state is
an explicit `World`; every mutating HTTP call of the flow becomes an
`Effect`, and `applyEffect` gives the natural semantics GoHighLevel is
assumed to implement for it. -/

/-- A GoHighLevel contact as the sync observes it. -/
structure GHLContact where
  id : String
  phone : Option String
  email : Option String
deriving DecidableEq

/-- A GoHighLevel opportunity as the sync observes it: `crmJobId` is the
value of the `crm_job_id` custom field used to tag the Source record. -/
structure GHLOpp where
  id : String
  contactId : String
  pipelineStageId : String
  crmJobId : Option String
deriving DecidableEq

/-- The remote state the sync flow reads: Service Fusion customers, the
estimate listing feed (`none` = the listing call raises), GoHighLevel
contacts and opportunities, and the ids GoHighLevel would assign to a
contact upsert / opportunity creation. -/
structure World where
  sfCustomers : List SFCustomer
  estimateFetch : Option (List (List SFEstimate))
  contacts : List GHLContact
  opps : List GHLOpp
  upsertResultId : String
  createOppResultId : String
deriving DecidableEq

/-- The mutating calls the sync flow can issue against GoHighLevel, plus
the non-mutating Slack notification. -/
inductive Effect where
  | upsertContact (phone email : Option String)
  | updateContactField (contactId fieldId value : String)
  | createOpportunity (contactId stageId tag : String)
  | updateOppCustomField (oppId key value : String)
  | updateOpportunityStage (oppId stageId : String)
  | slackNotify (functionName : String)
deriving DecidableEq

/-- Mutating GoHighLevel calls (everything except the notification). -/
def isTargetMutation : Effect → Bool
  | .slackNotify _ => false
  | _ => true

/-- Opportunity-mutating GoHighLevel calls. -/
def isOppMutation : Effect → Bool
  | .createOpportunity _ _ _ => true
  | .updateOppCustomField _ _ _ => true
  | .updateOpportunityStage _ _ => true
  | _ => false

/-- `GoHighLevelClient.search_contact_by_phone` over the `World`. -/
def search_contact_by_phone (w : World) (p : String) : Option GHLContact :=
  w.contacts.find? (fun c => c.phone == some p)

/-- `GoHighLevelClient.search_contact_by_email` over the `World`. -/
def search_contact_by_email (w : World) (e : String) : Option GHLContact :=
  w.contacts.find? (fun c => c.email == some e)

/-- `GoHighLevelClient.search_opportunity_by_job_id`: first opportunity of
the contact whose `crm_job_id` custom field equals the tag. -/
def search_opportunity_by_job_id (w : World) (cid tag : String) : Option GHLOpp :=
  w.opps.find? (fun o => o.contactId == cid && o.crmJobId == some tag)

/-- Semantics GoHighLevel is assumed to give each mutating call. -/
def applyEffect (w : World) : Effect → World
  | .upsertContact ph em =>
    { w with contacts := w.contacts ++ [⟨w.upsertResultId, ph, em⟩] }
  | .updateContactField _ _ _ => w
  | .createOpportunity cid stageId tag =>
    { w with opps := w.opps ++ [⟨w.createOppResultId, cid, stageId, some tag⟩] }
  | .updateOppCustomField oid k v =>
    if k = "crm_job_id" then
      { w with opps := w.opps.map (fun o =>
          if o.id = oid then { o with crmJobId := some v } else o) }
    else w
  | .updateOpportunityStage oid stageId =>
    { w with opps := w.opps.map (fun o =>
        if o.id = oid then { o with pipelineStageId := stageId } else o) }
  | .slackNotify _ => w

/-- Fold a trace of effects into the world. -/
def applyEffects (w : World) (l : List Effect) : World := l.foldl applyEffect w

/-- `Union[SFJob, SFEstimate]`, the work-order argument of
`sync_work_order_to_ghl`. -/
inductive WorkOrder where
  | job (j : SFJob)
  | estimate (e : SFEstimate)
deriving DecidableEq

/-- Work-order `id`. -/
def WorkOrder.id : WorkOrder → Int
  | .job j => j.id
  | .estimate e => e.id

/-- Work-order `customer_id`. -/
def WorkOrder.customer_id : WorkOrder → Int
  | .job j => j.customer_id
  | .estimate e => e.customer_id

/-- Work-order `status`. -/
def WorkOrder.status : WorkOrder → String
  | .job j => j.status
  | .estimate e => e.status

/-- app/main.py `find_converted_estimate_for_job`.  `.error ()` marks an
exception escaping the function (only the `created_at` parse sits outside
its `try`); a failing estimate-listing call (`estimateFetch = none`) is
caught and yields `.ok none`. -/
def find_converted_estimate_for_job (cfg : Config) (w : World) (job : SFJob) :
    Except Unit (Option Int) :=
  match job.created_at with
  | none => .ok none
  | some ca =>
    if ca.isEmpty then .ok none
    else if ca = job.updated_at then
      match (parseIsoNaive (pyReplace ca "+00:00" "")).map (sfLocalToUtcNaive cfg) with
      | none => .error ()
      | some dt =>
        match w.estimateFetch with
        | none => .ok none
        | some pages =>
          let ests := get_updated_estimates cfg pages (dt - 2 * 3600) 50
          .ok ((ests.find? (fun e =>
            e.customer_id == job.customer_id &&
            e.status == "Estimate Won" &&
            e.updated_at == job.updated_at)).map (fun e => e.id))
    else .ok none

/-- The conversion-detection step of `sync_work_order_to_ghl` (jobs only). -/
def convStep (cfg : Config) (w : World) : WorkOrder → Except Unit (Option Int)
  | .job j => find_converted_estimate_for_job cfg w j
  | .estimate _ => .ok none

/-- Steps 2 of `sync_work_order_to_ghl`: contact lookup by phone then
email, mirroring the two guarded searches. -/
def lookup_contact (w : World) (cust : SFCustomer) : Option GHLContact :=
  let byPhone :=
    match cust.phone with
    | some p => if p.isEmpty then none else search_contact_by_phone w p
    | none => none
  match byPhone with
  | some c => some c
  | none =>
    match cust.email with
    | some e => if e.isEmpty then none else search_contact_by_email w e
    | none => none

/-- Find-or-create of the GoHighLevel contact: a found contact gets the
Service Fusion customer id written into its link field; otherwise the
contact is created by upsert.  Returns the contact id the flow continues
with, plus the mutating calls issued. -/
def resolve_contact (cfg : Config) (w : World) (cust : SFCustomer) :
    String × List Effect :=
  match lookup_contact w cust with
  | some c =>
    (c.id, [Effect.updateContactField c.id cfg.settings.ghl_sf_customer_id_field
      (toString cust.id)])
  | none =>
    (w.upsertResultId,
      [Effect.upsertContact (optTruthy cust.phone) (optTruthy cust.email)])

/-- Step 3 of `sync_work_order_to_ghl`: converted-estimate re-pointing
first (search by the estimate's id and retag to the job's id), then the
normal lookup by the work order's own id. -/
def resolve_opportunity (w : World) (wo : WorkOrder) (conv : Option Int)
    (cid : String) : Option GHLOpp × List Effect :=
  let fromConv : Option GHLOpp × List Effect :=
    match conv with
    | some eid =>
      match search_opportunity_by_job_id w cid (toString eid) with
      | some o =>
        (some o, [Effect.updateOppCustomField o.id "crm_job_id" (toString wo.id)])
      | none => (none, [])
    | none => (none, [])
  match fromConv with
  | (some o, effs) => (some o, effs)
  | (none, effs) => (search_opportunity_by_job_id w cid (toString wo.id), effs)

/-- Outcome of `sync_work_order_to_ghl`: `error` stands for a raised
`JobSyncError` (or the conversion-check exception escaping). -/
inductive SyncOutcome where
  | success
  | skippedUnmappedStatus
  | skippedNoContactInfo
  | error (msg : String)
deriving DecidableEq

/-- app/main.py `sync_work_order_to_ghl`: conversion detection, status →
stage mapping (Python-falsy stage id means skip), customer fetch
(missing customer raises), missing-contact-info skip, contact
resolution, opportunity resolution, then create-or-update with the stage
comparison short-circuit. -/
def sync_work_order_to_ghl (cfg : Config) (w : World) (wo : WorkOrder) :
    SyncOutcome × List Effect :=
  match convStep cfg w wo with
  | .error _ => (.error "conversion check raised", [])
  | .ok conv =>
    let ghl_stage_id := pyDictGet (sf_to_ghl_stage_map cfg.settings) wo.status
    match ghl_stage_id with
    | none => (.skippedUnmappedStatus, [])
    | some g =>
      if g.isEmpty then (.skippedUnmappedStatus, [])
      else
        match w.sfCustomers.find? (fun c => c.id == wo.customer_id) with
        | none => (.error "customer does not exist", [])
        | some cust =>
          if optStrFalsy cust.phone && optStrFalsy cust.email then
            (.skippedNoContactInfo, [Effect.slackNotify "sync_work_order_to_ghl"])
          else
            match resolve_contact cfg w cust with
            | (cid, ceffs) =>
              if cid.isEmpty then (.error "failed to get GHL contact ID", ceffs)
              else
                match resolve_opportunity w wo conv cid with
                | (none, oeffs) =>
                  (.success, ceffs ++ oeffs ++
                    [Effect.createOpportunity cid g (toString wo.id)])
                | (some o, oeffs) =>
                  if o.pipelineStageId = g then (.success, ceffs ++ oeffs)
                  else
                    (.success, ceffs ++ oeffs ++
                      [Effect.updateOpportunityStage o.id g])

/-- Outcome of `handle_sf_customer_update`. -/
inductive CustomerSyncOutcome where
  | skipped
  | synced
deriving DecidableEq

/-- app/main.py `handle_sf_customer_update`: skip when phone and email are
both falsy, else upsert the contact. -/
def handle_sf_customer_update (c : SFCustomer) : CustomerSyncOutcome × List Effect :=
  if optStrFalsy c.phone && optStrFalsy c.email then (.skipped, [])
  else (.synced, [Effect.upsertContact c.phone c.email])

/-- One entry of the `sync_errors` list of `check_for_job_updates`. -/
structure SyncErrEntry where
  job_id : Int
  job_number : Option String
  error : String
deriving DecidableEq

/-- The single batched Slack notification of a pass. -/
structure SlackNotif where
  function_name : String
  failed_count : Nat
  failed_jobs : List SyncErrEntry
deriving DecidableEq

/-- Accumulator of the per-job loop of `check_for_job_updates`. -/
structure BatchState where
  world : World
  attempted : List Int
  sync_errors : List SyncErrEntry
deriving DecidableEq

/-- One iteration of the per-job loop: run the sync, fold its effects into
the world, record an error entry if it raised, and always move on. -/
def runJobStep (cfg : Config) (st : BatchState) (j : SFJob) : BatchState :=
  let r := sync_work_order_to_ghl cfg st.world (.job j)
  { world := applyEffects st.world r.2
    attempted := st.attempted ++ [j.id]
    sync_errors := st.sync_errors ++
      (match r.1 with
       | .error m => [⟨j.id, j.number, m⟩]
       | _ => []) }

/-- app/main.py `check_for_job_updates`, from the point where the listed
jobs are in hand: the partial-failure loop plus the single batched
failure notification carrying the count and the first five failures. -/
def check_for_job_updates (cfg : Config) (w : World) (jobs : List SFJob) :
    BatchState × List SlackNotif :=
  let st := jobs.foldl (runJobStep cfg) ⟨w, [], []⟩
  (st,
    if st.sync_errors.isEmpty then []
    else [⟨"check_for_job_updates", st.sync_errors.length, st.sync_errors.take 5⟩])

deriving instance DecidableEq for Except

/-- Settings used by concrete scenarios: the defaults with the GoHighLevel
identifiers (empty by default) filled in, as a deployed configuration
would have them. -/
def settingsW : Settings :=
  { defaultSettings with
    ghl_sf_customer_id_field := "fld_sfcid"
    ghl_pipeline_id := "pl_1"
    ghl_opportunity_crm_job_id_field := "fld_crm"
    ghl_stage_appointment_request := "stg_appt"
    ghl_stage_estimate_scheduled := "stg_es"
    ghl_stage_estimate_sent := "stg_sent"
    ghl_stage_estimate_stop := "stg_stop"
    ghl_stage_canceled := "stg_can"
    ghl_stage_job_scheduled := "stg_js"
    ghl_stage_job_in_progress := "stg_prog"
    ghl_stage_review_referral := "stg_rev" }

/-- A configuration whose Service Fusion zone is a constant five hours
behind UTC. -/
def cfg5 : Config := ⟨settingsW, fun _ => -5 * 3600⟩

/-- The job-status vocabulary defined by the `Settings` class. -/
def jobStatusVocab (s : Settings) : List String :=
  [s.sf_status_unscheduled, s.sf_status_scheduled, s.sf_status_dispatched,
   s.sf_status_delayed, s.sf_status_on_the_way, s.sf_status_on_site,
   s.sf_status_started, s.sf_status_paused, s.sf_status_resumed,
   s.sf_status_completed, s.sf_status_cancelled, s.sf_status_job_closed,
   s.sf_status_to_be_invoiced, s.sf_status_invoiced, s.sf_status_paid_in_full,
   s.sf_status_partially_completed, s.sf_status_archived]

/-- The estimate-status vocabulary defined by the `Settings` class. -/
def estimateStatusVocab (s : Settings) : List String :=
  [s.sf_estimate_status_requested, s.sf_estimate_status_scheduled,
   s.sf_estimate_status_provided, s.sf_estimate_status_accepted,
   s.sf_estimate_status_won, s.sf_estimate_status_lost]

/-- A record parses and is strictly newer than the cursor — the inclusion
test of the `get_updated_*` scans. -/
@[reducible] def isNewer (parse : α → Option Int) (since : Int) (r : α) : Bool :=
  match parse r with
  | some t => decide (since < t)
  | none => false

/-- Every record of a feed has a parseable timestamp. -/
@[reducible] def parsesAll (parse : α → Option Int) (l : List α) : Prop :=
  ∀ r ∈ l, (parse r).isSome

/-- The flattened feed is sorted newest-updated-first (non-increasing
parsed timestamps), the upstream guarantee of `sort=-updated_at`. -/
@[reducible] def NewestFirst (parse : α → Option Int) (l : List α) : Prop :=
  l.Pairwise (fun a b => ((parse b).getD 0) ≤ ((parse a).getD 0))

/-- Every page before the last carries exactly `per_page = 50` records, as
the upstream pagination serves them. -/
def middleFull : List (List α) → Bool
  | [] => true
  | [_] => true
  | p :: rest => p.length == 50 && middleFull rest

/-! ## Theorems -/

/-- C5 counterexample: for customers the claimed normalization does not
happen — the record `"2024-03-01T10:00:00+00:00"` does **not** resolve to
naive-UTC 2024-03-01T15:00:00 (= 1709305200), because
`SFCustomer.updated_at_datetime` performs no timezone conversion. -/
theorem claim5_counterexample :
    SFCustomer.updated_at_datetime
      ⟨1, "Acme", "2024-03-01T10:00:00+00:00", []⟩ ≠ some 1709305200 := by
  decide

/-- C5 amended: for jobs and estimates the computed timestamp strips the
`+00:00` marker, reads the wall-clock in the configured zone (offset
`off`) and converts to naive UTC — in particular
`"2024-03-01T10:00:00+00:00"` under a zone five hours behind UTC resolves
to 2024-03-01T15:00:00 (= 1709305200).  Customers are the exception: their
parse is verbatim, yielding 2024-03-01T10:00:00 (= 1709287200). -/
theorem claim5_amended :
    (∀ (off i cid : Int) (n cn ca : Option String) (st : String),
      SFJob.updated_at_datetime ⟨settingsW, fun _ => off⟩
        ⟨i, n, cid, cn, st, "2024-03-01T10:00:00+00:00", ca⟩ =
        some (1709287200 - off)) ∧
    (∀ (off i cid : Int) (n cn st : String),
      SFEstimate.updated_at_datetime ⟨settingsW, fun _ => off⟩
        ⟨i, n, cid, cn, st, "2024-03-01T10:00:00+00:00"⟩ =
        some (1709287200 - off)) ∧
    (∀ (i : Int) (n : String) (cts : List SFContact),
      SFCustomer.updated_at_datetime ⟨i, n, "2024-03-01T10:00:00+00:00", cts⟩ =
        some 1709287200) ∧
    SFJob.updated_at_datetime cfg5
      ⟨7, some "J7", 3, none, "Scheduled", "2024-03-01T10:00:00+00:00", none⟩ =
      some 1709305200 := by
  have hp : parseIsoNaive (pyReplace "2024-03-01T10:00:00+00:00" "+00:00" "") =
      some 1709287200 := by decide
  refine ⟨?_, ?_, ?_, by decide⟩
  · intro off i cid n cn ca st
    simp [SFJob.updated_at_datetime, sfLocalToUtcNaive, hp]
  · intro off i cid n cn st
    simp [SFEstimate.updated_at_datetime, sfLocalToUtcNaive, hp]
  · intro i n cts
    have hc : parseIsoNaive (pyReplace (pyReplace "2024-03-01T10:00:00+00:00"
        "+00:00" "") "Z" "") = some 1709287200 := by decide
    simp [SFCustomer.updated_at_datetime, hc]

/-- C9: `SFCustomer.updated_at_datetime` is the verbatim parse of the
suffix-stripped string (no timezone conversion), while the job parser
shifts by the configured zone's offset; on the same record string the two
differ under a nonzero offset. -/
theorem claim9_customer_no_tz_conversion :
    (∀ (c : SFCustomer) (t : Int),
      parseIsoNaive (pyReplace (pyReplace c.updated_at "+00:00" "") "Z" "") = some t →
      SFCustomer.updated_at_datetime c = some t) ∧
    (∀ (cfg : Config) (j : SFJob) (t : Int),
      parseIsoNaive (pyReplace j.updated_at "+00:00" "") = some t →
      SFJob.updated_at_datetime cfg j = some (t - cfg.tzOff t)) ∧
    (SFCustomer.updated_at_datetime ⟨9, "C", "2024-03-01T10:00:00+00:00", []⟩ =
        some 1709287200 ∧
      SFJob.updated_at_datetime cfg5
        ⟨9, none, 1, none, "Scheduled", "2024-03-01T10:00:00+00:00", none⟩ =
        some 1709305200 ∧
      (1709287200 : Int) ≠ 1709305200) := by
  refine ⟨?_, ?_, by decide⟩
  · intro c t h
    simpa [SFCustomer.updated_at_datetime] using h
  · intro cfg j t h
    simp [SFJob.updated_at_datetime, sfLocalToUtcNaive, h]

/-- C9 witness: the customer parser applied to a concrete `Z`-suffixed
record yields the verbatim naive instant. -/
theorem claim9_witness :
    SFCustomer.updated_at_datetime ⟨2, "B", "2024-03-01T08:30:00Z", []⟩ =
      some 1709281800 :=
  claim9_customer_no_tz_conversion.1 ⟨2, "B", "2024-03-01T08:30:00Z", []⟩
    1709281800 (by decide)

/-- C6 counterexample: `"Job Closed"` is a job-status string defined by the
configuration, yet the stage map has no key for it. -/
theorem claim6_counterexample :
    defaultSettings.sf_status_job_closed ∈ jobStatusVocab defaultSettings ∧
    pyDictGet (sf_to_ghl_stage_map defaultSettings)
      defaultSettings.sf_status_job_closed = none := by
  decide

/-- C6 amended: each stage-map key maps to one stage identifier, but the
key set covers only 12 of the 17 configured job statuses and 5 of the 6
configured estimate statuses; `Job Closed`, `To be invoiced`, `Invoiced`,
`Paid in Full`, `Archived` and `Estimate Scheduled` have no mapping. -/
theorem claim6_amended :
    (jobStatusVocab defaultSettings ++ estimateStatusVocab defaultSettings).filter
        (fun s => (pyDictGet (sf_to_ghl_stage_map defaultSettings) s).isSome) =
      ["Unscheduled", "Scheduled", "Dispatched", "Delayed", "On The Way",
       "On Site", "Started", "Paused", "Resumed", "Completed", "Cancelled",
       "Partially Completed", "Estimate Requested", "Estimate Provided",
       "Estimate Accepted", "Estimate Won", "Lost"] ∧
    (jobStatusVocab defaultSettings ++ estimateStatusVocab defaultSettings).filter
        (fun s => pyDictGet (sf_to_ghl_stage_map defaultSettings) s == none) =
      ["Job Closed", "To be invoiced", "Invoiced", "Paid in Full", "Archived",
       "Estimate Scheduled"] ∧
    (sf_to_ghl_stage_map defaultSettings).length = 17 := by
  decide

/-- C8: with no state file, or with the record kind's key absent from the
state file, each cursor reader returns `now - 24h` instead of failing. -/
theorem claim8_cursor_fallback (file : Option (List (String × String)))
    (now : Int) (data : List (String × String)) :
    (file = none →
      get_last_customer_poll_time file now = now - 24 * 3600 ∧
      get_last_job_poll_time file now = now - 24 * 3600 ∧
      get_last_estimate_poll_time file now = now - 24 * 3600) ∧
    (file = some data →
      (stateGet data "last_sf_poll" = none →
        get_last_customer_poll_time file now = now - 24 * 3600) ∧
      (stateGet data "last_job_poll" = none →
        get_last_job_poll_time file now = now - 24 * 3600) ∧
      (stateGet data "last_estimate_poll" = none →
        get_last_estimate_poll_time file now = now - 24 * 3600)) := by
  constructor
  · rintro rfl
    exact ⟨rfl, rfl, rfl⟩
  · rintro rfl
    refine ⟨fun h => ?_, fun h => ?_, fun h => ?_⟩ <;>
      simp [get_last_customer_poll_time, get_last_job_poll_time,
        get_last_estimate_poll_time, getPollTimeOrFallback, h]

/-- C8 witness: first run (no file) and a file missing the job key both
fall back to 24 hours before `now`. -/
theorem claim8_witness :
    get_last_customer_poll_time none 1709305200 = 1709305200 - 24 * 3600 ∧
    get_last_job_poll_time (some [("last_sf_poll", "2024-03-01T10:00:00")])
      1709305200 = 1709305200 - 24 * 3600 := by
  constructor
  · exact ((claim8_cursor_fallback none 1709305200 []).1 rfl).1
  · exact ((claim8_cursor_fallback (some [("last_sf_poll", "2024-03-01T10:00:00")])
      1709305200 [("last_sf_poll", "2024-03-01T10:00:00")]).2 rfl).2.1 (by decide)

/-- Helper for C10: a parseable `updated_at` yields a parseable stripped
string. -/
theorem updated_parse_of_isSome {cfg : Config} {j : SFJob}
    (hs : (SFJob.updated_at_datetime cfg j).isSome = true) :
    ∃ t, parseIsoNaive (pyReplace j.updated_at "+00:00" "") = some t := by
  unfold SFJob.updated_at_datetime at hs
  cases hp : parseIsoNaive (pyReplace j.updated_at "+00:00" "") with
  | none => rw [hp] at hs; simp at hs
  | some t => exact ⟨t, rfl⟩

/-- C10 counterexample: a job whose `created_at` equals its `updated_at`
but does not parse makes the `created_at` parse — which sits outside the
`try` of `find_converted_estimate_for_job` — escape, so the conversion
check raises instead of returning "no match", and the job's sync fails. -/
theorem claim10_counterexample :
    find_converted_estimate_for_job cfg5 ⟨[], some [], [], [], "u", "o"⟩
      ⟨1, some "J1", 2, none, "Scheduled", "garbage", some "garbage"⟩ =
      .error () ∧
    (sync_work_order_to_ghl cfg5 ⟨[], some [], [], [], "u", "o"⟩
      (.job ⟨1, some "J1", 2, none, "Scheduled", "garbage", some "garbage"⟩)).1 =
      .error "conversion check raised" := by
  decide

/-- C10 amended: the estimate-listing failure and the match loop are inside
the `try` and are swallowed into "no match"; an absent, falsy or different
`created_at` also yields "no match"; and for any job whose `updated_at`
parses (as every job delivered by the lister does) the conversion check
never raises — only an unparsable `created_at` equal to `updated_at`
escapes. -/
theorem claim10_amended (cfg : Config) (w : World) (j : SFJob) :
    (optStrFalsy j.created_at = true →
      find_converted_estimate_for_job cfg w j = .ok none) ∧
    (∀ ca, j.created_at = some ca → ca.isEmpty = false → ca ≠ j.updated_at →
      find_converted_estimate_for_job cfg w j = .ok none) ∧
    (w.estimateFetch = none → (SFJob.updated_at_datetime cfg j).isSome = true →
      find_converted_estimate_for_job cfg w j = .ok none) ∧
    ((SFJob.updated_at_datetime cfg j).isSome = true →
      find_converted_estimate_for_job cfg w j ≠ .error ()) := by
  refine ⟨?_, ?_, ?_, ?_⟩
  · intro h
    cases hca : j.created_at with
    | none => simp [find_converted_estimate_for_job, hca]
    | some ca =>
      rw [hca] at h
      simp only [optStrFalsy] at h
      simp [find_converted_estimate_for_job, hca, h]
  · intro ca hca hne hneq
    simp [find_converted_estimate_for_job, hca, hne, hneq]
  · intro hf hs
    obtain ⟨t, ht⟩ := updated_parse_of_isSome hs
    cases hca : j.created_at with
    | none => simp [find_converted_estimate_for_job, hca]
    | some ca =>
      by_cases he : ca.isEmpty
      · simp [find_converted_estimate_for_job, hca, he]
      · by_cases heq : ca = j.updated_at
        · have he' : j.updated_at.isEmpty = false := by
            rw [← heq]; simpa using he
          have ht' : parseIsoNaive (pyReplace j.updated_at "+00:00" "") = some t := ht
          simp [find_converted_estimate_for_job, hca, heq, he', ht', hf]
        · simp [find_converted_estimate_for_job, hca, he, heq]
  · intro hs
    obtain ⟨t, ht⟩ := updated_parse_of_isSome hs
    cases hca : j.created_at with
    | none => simp [find_converted_estimate_for_job, hca]
    | some ca =>
      by_cases he : ca.isEmpty
      · simp [find_converted_estimate_for_job, hca, he]
      · by_cases heq : ca = j.updated_at
        · have he' : j.updated_at.isEmpty = false := by
            rw [← heq]; simpa using he
          have ht' : parseIsoNaive (pyReplace j.updated_at "+00:00" "") = some t := ht
          cases hf : w.estimateFetch with
          | none => simp [find_converted_estimate_for_job, hca, heq, he', ht', hf]
          | some pages =>
            simp [find_converted_estimate_for_job, hca, heq, he', ht', hf]
        · simp [find_converted_estimate_for_job, hca, he, heq]

/-- C10 witness: with the estimate listing failing, a freshly created job
with a parseable timestamp is treated as "no converted estimate". -/
theorem claim10_witness :
    find_converted_estimate_for_job cfg5 ⟨[], none, [], [], "u", "o"⟩
      ⟨1, some "J1", 2, none, "Scheduled", "2024-03-01T10:00:00+00:00",
        some "2024-03-01T10:00:00+00:00"⟩ = .ok none :=
  (claim10_amended cfg5 ⟨[], none, [], [], "u", "o"⟩
    ⟨1, some "J1", 2, none, "Scheduled", "2024-03-01T10:00:00+00:00",
      some "2024-03-01T10:00:00+00:00"⟩).2.2.1 rfl (by decide)

/-- Helper for C7: under falsy contact info the sync either skips (unmapped
status or the explicit no-contact-info skip) or, when the conversion check
itself raised, fails before any mutating call. -/
theorem sync_no_contact_cases (cfg : Config) (w : World) (c : SFCustomer)
    (wo : WorkOrder)
    (hphone : optStrFalsy (SFCustomer.phone c) = true)
    (hemail : optStrFalsy (SFCustomer.email c) = true)
    (hcust : w.sfCustomers.find? (fun x => x.id == wo.customer_id) = some c) :
    sync_work_order_to_ghl cfg w wo = (.skippedUnmappedStatus, []) ∨
    sync_work_order_to_ghl cfg w wo =
      (.skippedNoContactInfo, [Effect.slackNotify "sync_work_order_to_ghl"]) ∨
    (convStep cfg w wo = .error () ∧
      sync_work_order_to_ghl cfg w wo = (.error "conversion check raised", [])) := by
  cases hcv : convStep cfg w wo with
  | error u =>
    right; right
    constructor
    · cases u; rfl
    · simp [sync_work_order_to_ghl, hcv]
  | ok conv =>
    cases hst : pyDictGet (sf_to_ghl_stage_map cfg.settings) wo.status with
    | none => left; simp [sync_work_order_to_ghl, hcv, hst]
    | some g =>
      by_cases hg : g.isEmpty
      · left; simp [sync_work_order_to_ghl, hcv, hst, hg]
      · right; left
        simp [sync_work_order_to_ghl, hcv, hst, hg, hcust, hphone, hemail]

/-- C7: a customer whose derived phone and email are both (Python-)falsy
never causes a mutating GoHighLevel call — neither in the customer-sync
path (`handle_sf_customer_update` returns before the upsert) nor in the
work-order path — and, when the conversion check does not raise, the
work-order sync ends in a skip outcome, not an error, so the batch loop
records no failure for it. -/
theorem claim7_missing_contact_skip (cfg : Config) (w : World) (c : SFCustomer)
    (wo : WorkOrder)
    (hphone : optStrFalsy (SFCustomer.phone c) = true)
    (hemail : optStrFalsy (SFCustomer.email c) = true)
    (hcust : w.sfCustomers.find? (fun x => x.id == wo.customer_id) = some c) :
    handle_sf_customer_update c = (.skipped, []) ∧
    (sync_work_order_to_ghl cfg w wo).2.filter isTargetMutation = [] ∧
    (∀ conv, convStep cfg w wo = .ok conv →
      (sync_work_order_to_ghl cfg w wo).1 = .skippedUnmappedStatus ∨
      (sync_work_order_to_ghl cfg w wo).1 = .skippedNoContactInfo) ∧
    (∀ (j : SFJob) (st : BatchState) (conv : Option Int), wo = .job j →
      st.world = w → convStep cfg w wo = .ok conv →
      (runJobStep cfg st j).sync_errors = st.sync_errors) := by
  have main := sync_no_contact_cases cfg w c wo hphone hemail hcust
  refine ⟨?_, ?_, ?_, ?_⟩
  · simp [handle_sf_customer_update, hphone, hemail]
  · rcases main with h | h | ⟨_, h⟩ <;> simp [h, isTargetMutation]
  · intro conv hconv
    rcases main with h | h | ⟨hc, _⟩
    · left; simp [h]
    · right; simp [h]
    · rw [hconv] at hc; cases hc
  · intro j st conv hwo hst hconv
    subst hwo
    rcases main with h | h | ⟨hc, _⟩
    · simp [runJobStep, hst, h]
    · simp [runJobStep, hst, h]
    · rw [hconv] at hc; cases hc

/-- C7 witness: a concrete customer with no contacts (hence no phone and no
email) is skipped on both paths and adds no batch failure. -/
theorem claim7_witness :
    handle_sf_customer_update ⟨5, "NoInfo", "2024-03-01T10:00:00+00:00", []⟩ =
      (.skipped, []) ∧
    ((sync_work_order_to_ghl cfg5 ⟨[⟨5, "NoInfo", "2024-03-01T10:00:00+00:00", []⟩],
        some [], [], [], "u", "o"⟩
      (.job ⟨11, some "J11", 5, none, "Scheduled",
        "2024-03-01T11:00:00+00:00", none⟩)).1 = .skippedUnmappedStatus ∨
    (sync_work_order_to_ghl cfg5 ⟨[⟨5, "NoInfo", "2024-03-01T10:00:00+00:00", []⟩],
        some [], [], [], "u", "o"⟩
      (.job ⟨11, some "J11", 5, none, "Scheduled",
        "2024-03-01T11:00:00+00:00", none⟩)).1 = .skippedNoContactInfo) := by
  have h := claim7_missing_contact_skip cfg5
    ⟨[⟨5, "NoInfo", "2024-03-01T10:00:00+00:00", []⟩], some [], [], [], "u", "o"⟩
    ⟨5, "NoInfo", "2024-03-01T10:00:00+00:00", []⟩
    (.job ⟨11, some "J11", 5, none, "Scheduled", "2024-03-01T11:00:00+00:00", none⟩)
    (by decide) (by decide) (by decide)
  exact ⟨h.1, h.2.2.1 none (by decide)⟩

/-- Helper for C4: the per-job loop appends every job's id to `attempted`,
whatever each sync's outcome — no failure aborts the batch. -/
theorem foldl_runJobStep_attempted (cfg : Config) (jobs : List SFJob) :
    ∀ st : BatchState, (jobs.foldl (runJobStep cfg) st).attempted =
      st.attempted ++ jobs.map (fun j => j.id) := by
  induction jobs with
  | nil => intro st; simp
  | cons j rest ih =>
    intro st
    rw [List.foldl_cons, ih]
    simp [runJobStep]

/-- C4 counterexample: with six failing jobs the pass sends one batched
notification, but its context lists only the first five failures — the
sixth failing record is counted yet not included, against the claim that
the context includes every failing record. -/
theorem claim4_counterexample :
    (check_for_job_updates cfg5 ⟨[], some [], [], [], "u", "o"⟩
      [⟨1, some "J1", 99, none, "Scheduled", "s", none⟩,
       ⟨2, some "J2", 99, none, "Scheduled", "s", none⟩,
       ⟨3, some "J3", 99, none, "Scheduled", "s", none⟩,
       ⟨4, some "J4", 99, none, "Scheduled", "s", none⟩,
       ⟨5, some "J5", 99, none, "Scheduled", "s", none⟩,
       ⟨6, some "J6", 99, none, "Scheduled", "s", none⟩]).2 =
      [⟨"check_for_job_updates", 6,
        [⟨1, some "J1", "customer does not exist"⟩,
         ⟨2, some "J2", "customer does not exist"⟩,
         ⟨3, some "J3", "customer does not exist"⟩,
         ⟨4, some "J4", "customer does not exist"⟩,
         ⟨5, some "J5", "customer does not exist"⟩]⟩] ∧
    (⟨6, some "J6", "customer does not exist"⟩ : SyncErrEntry) ∈
      (check_for_job_updates cfg5 ⟨[], some [], [], [], "u", "o"⟩
        [⟨1, some "J1", 99, none, "Scheduled", "s", none⟩,
         ⟨2, some "J2", 99, none, "Scheduled", "s", none⟩,
         ⟨3, some "J3", 99, none, "Scheduled", "s", none⟩,
         ⟨4, some "J4", 99, none, "Scheduled", "s", none⟩,
         ⟨5, some "J5", 99, none, "Scheduled", "s", none⟩,
         ⟨6, some "J6", 99, none, "Scheduled", "s", none⟩]).1.sync_errors ∧
    (⟨6, some "J6", "customer does not exist"⟩ : SyncErrEntry) ∉
      [(⟨1, some "J1", "customer does not exist"⟩ : SyncErrEntry),
       ⟨2, some "J2", "customer does not exist"⟩,
       ⟨3, some "J3", "customer does not exist"⟩,
       ⟨4, some "J4", "customer does not exist"⟩,
       ⟨5, some "J5", "customer does not exist"⟩] := by
  decide

/-- C4 amended: the orchestrator attempts every listed job even after
failures; it sends no notification when nothing failed, and exactly one
batched notification otherwise, whose context carries the total failure
count and the first five failure entries (a failing record beyond the
fifth is counted but not listed). -/
theorem claim4_amended (cfg : Config) (w : World) (jobs : List SFJob) :
    (check_for_job_updates cfg w jobs).1.attempted = jobs.map (fun j => j.id) ∧
    ((check_for_job_updates cfg w jobs).1.sync_errors = [] →
      (check_for_job_updates cfg w jobs).2 = []) ∧
    ((check_for_job_updates cfg w jobs).1.sync_errors ≠ [] →
      (check_for_job_updates cfg w jobs).2 =
        [⟨"check_for_job_updates",
          (check_for_job_updates cfg w jobs).1.sync_errors.length,
          (check_for_job_updates cfg w jobs).1.sync_errors.take 5⟩]) := by
  refine ⟨?_, ?_, ?_⟩
  · simpa using foldl_runJobStep_attempted cfg jobs ⟨w, [], []⟩
  · intro h
    have h' : (jobs.foldl (runJobStep cfg) ⟨w, [], []⟩).sync_errors = [] := h
    simp [check_for_job_updates, h']
  · intro h
    have h' : (jobs.foldl (runJobStep cfg) ⟨w, [], []⟩).sync_errors ≠ [] := h
    simp [check_for_job_updates, h']

/-- C4 witness: a concrete two-job batch with one failure — both jobs are
attempted and the single notification lists the failing record. -/
theorem claim4_witness :
    (check_for_job_updates cfg5 ⟨[], some [], [], [], "u", "o"⟩
      [⟨1, some "J1", 99, none, "Unknown Status", "s", none⟩,
       ⟨2, some "J2", 99, none, "Scheduled", "s", none⟩]).1.attempted = [1, 2] ∧
    (check_for_job_updates cfg5 ⟨[], some [], [], [], "u", "o"⟩
      [⟨1, some "J1", 99, none, "Unknown Status", "s", none⟩,
       ⟨2, some "J2", 99, none, "Scheduled", "s", none⟩]).2 =
      [⟨"check_for_job_updates", 1, [⟨2, some "J2", "customer does not exist"⟩]⟩] := by
  have h := claim4_amended cfg5 ⟨[], some [], [], [], "u", "o"⟩
    [⟨1, some "J1", 99, none, "Unknown Status", "s", none⟩,
     ⟨2, some "J2", 99, none, "Scheduled", "s", none⟩]
  refine ⟨by simpa using h.1, ?_⟩
  have h2 := h.2.2 (by decide)
  rw [h2]
  decide

/-- Helper: the contact-resolution step either finds a contact and issues
one contact-field update, or finds none and issues one contact upsert —
never an opportunity effect. -/
theorem resolve_contact_shape (cfg : Config) (w : World) (cust : SFCustomer) :
    (∃ c0, lookup_contact w cust = some c0 ∧
      resolve_contact cfg w cust =
        (c0.id, [Effect.updateContactField c0.id
          cfg.settings.ghl_sf_customer_id_field (toString cust.id)])) ∨
    (lookup_contact w cust = none ∧
      resolve_contact cfg w cust =
        (w.upsertResultId,
          [Effect.upsertContact (optTruthy cust.phone) (optTruthy cust.email)])) := by
  cases h : lookup_contact w cust with
  | some c0 => left; exact ⟨c0, rfl, by simp [resolve_contact, h]⟩
  | none => right; exact ⟨rfl, by simp [resolve_contact, h]⟩

/-- C2: when a job J (created_at = updated_at = T) has a matching
"Estimate Won" estimate E for the same customer in the 2-hour-lookback
listing, and an opportunity tagged with E's id exists under the resolved
contact, syncing J re-tags that opportunity's `crm_job_id` custom field to
J's id, creates no opportunity, and succeeds. -/
theorem claim2_conversion_repoint (cfg : Config) (w : World) (J : SFJob)
    (E : SFEstimate) (pages : List (List SFEstimate)) (cust : SFCustomer)
    (o : GHLOpp) (cid : String) (ceffs : List Effect) (g T : String) (tT : Int)
    (hca : J.created_at = some T)
    (hTne : T.isEmpty = false)
    (hupd : J.updated_at = T)
    (hparse : parseIsoNaive (pyReplace T "+00:00" "") = some tT)
    (hfetch : w.estimateFetch = some pages)
    (hfind : (get_updated_estimates cfg pages (sfLocalToUtcNaive cfg tT - 7200)
        50).find? (fun e => e.customer_id == J.customer_id &&
          e.status == "Estimate Won" && e.updated_at == T) = some E)
    (hstage : pyDictGet (sf_to_ghl_stage_map cfg.settings) J.status = some g)
    (hg : g.isEmpty = false)
    (hcust : w.sfCustomers.find? (fun c => c.id == J.customer_id) = some cust)
    (hinfo : (optStrFalsy cust.phone && optStrFalsy cust.email) = false)
    (hrc : resolve_contact cfg w cust = (cid, ceffs))
    (hcid : cid.isEmpty = false)
    (hopp : search_opportunity_by_job_id w cid (toString E.id) = some o) :
    Effect.updateOppCustomField o.id "crm_job_id" (toString J.id) ∈
      (sync_work_order_to_ghl cfg w (.job J)).2 ∧
    (∀ c s t, Effect.createOpportunity c s t ∉
      (sync_work_order_to_ghl cfg w (.job J)).2) ∧
    (sync_work_order_to_ghl cfg w (.job J)).1 = .success := by
  have hconv : convStep cfg w (.job J) = .ok (some E.id) := by
    simp [convStep, find_converted_estimate_for_job, hca, hupd, hTne, hparse,
      hfetch]
    exact ⟨E, hfind, rfl⟩
  have hceffs : ∀ c s t, Effect.createOpportunity c s t ∉ ceffs := by
    intro c s t hmem
    rcases resolve_contact_shape cfg w cust with ⟨c0, _, h⟩ | ⟨_, h⟩ <;>
      rw [hrc] at h
    · have h2 := congrArg Prod.snd h
      simp at h2
      rw [h2] at hmem; simp at hmem
    · have h2 := congrArg Prod.snd h
      simp at h2
      rw [h2] at hmem; simp at hmem
  by_cases hstg : o.pipelineStageId = g
  · have hs : sync_work_order_to_ghl cfg w (.job J) =
        (.success, ceffs ++
          [Effect.updateOppCustomField o.id "crm_job_id" (toString J.id)]) := by
      simp [sync_work_order_to_ghl, hconv, hstage, hg, WorkOrder.customer_id,
        WorkOrder.status, hcust, hinfo, hrc, hcid, resolve_opportunity,
        WorkOrder.id, hopp, hstg]
    rw [hs]
    refine ⟨by simp, ?_, rfl⟩
    intro c s t hmem
    rcases List.mem_append.mp hmem with hmem | hmem
    · exact hceffs c s t hmem
    · simp at hmem
  · have hs : sync_work_order_to_ghl cfg w (.job J) =
        (.success, ceffs ++
          [Effect.updateOppCustomField o.id "crm_job_id" (toString J.id)] ++
          [Effect.updateOpportunityStage o.id g]) := by
      simp [sync_work_order_to_ghl, hconv, hstage, hg, WorkOrder.customer_id,
        WorkOrder.status, hcust, hinfo, hrc, hcid, resolve_opportunity,
        WorkOrder.id, hopp, hstg]
    rw [hs]
    refine ⟨?_, ?_, rfl⟩
    · simp
    · intro c s t hmem
      rcases List.mem_append.mp hmem with hmem | hmem
      · rcases List.mem_append.mp hmem with hmem | hmem
        · exact hceffs c s t hmem
        · simp at hmem
      · simp at hmem

/-- C2 witness: a concrete won estimate (id 21) converted into job 22 —
the existing opportunity tagged "21" is re-tagged to "22", no opportunity
is created, and the sync succeeds. -/
theorem claim2_witness :
    Effect.updateOppCustomField "o1" "crm_job_id" (toString (22 : Int)) ∈
      (sync_work_order_to_ghl cfg5
        ⟨[⟨3, "Carol", "2024-03-01T10:00:00+00:00",
            [⟨some "Carol", some "C", some true, [⟨some "(303) 555-1234"⟩], []⟩]⟩],
         some [[⟨21, "E21", 3, "Carol", "Estimate Won",
            "2024-03-01T10:00:00+00:00"⟩]],
         [⟨"c1", some "3035551234", none⟩],
         [⟨"o1", "c1", "stg_js", some "21"⟩], "u", "onew"⟩
        (.job ⟨22, some "J22", 3, some "Carol", "Scheduled",
          "2024-03-01T10:00:00+00:00", some "2024-03-01T10:00:00+00:00"⟩)).2 ∧
    (sync_work_order_to_ghl cfg5
        ⟨[⟨3, "Carol", "2024-03-01T10:00:00+00:00",
            [⟨some "Carol", some "C", some true, [⟨some "(303) 555-1234"⟩], []⟩]⟩],
         some [[⟨21, "E21", 3, "Carol", "Estimate Won",
            "2024-03-01T10:00:00+00:00"⟩]],
         [⟨"c1", some "3035551234", none⟩],
         [⟨"o1", "c1", "stg_js", some "21"⟩], "u", "onew"⟩
        (.job ⟨22, some "J22", 3, some "Carol", "Scheduled",
          "2024-03-01T10:00:00+00:00", some "2024-03-01T10:00:00+00:00"⟩)).1 =
      .success := by
  have h := claim2_conversion_repoint cfg5
    ⟨[⟨3, "Carol", "2024-03-01T10:00:00+00:00",
        [⟨some "Carol", some "C", some true, [⟨some "(303) 555-1234"⟩], []⟩]⟩],
     some [[⟨21, "E21", 3, "Carol", "Estimate Won", "2024-03-01T10:00:00+00:00"⟩]],
     [⟨"c1", some "3035551234", none⟩],
     [⟨"o1", "c1", "stg_js", some "21"⟩], "u", "onew"⟩
    ⟨22, some "J22", 3, some "Carol", "Scheduled",
      "2024-03-01T10:00:00+00:00", some "2024-03-01T10:00:00+00:00"⟩
    ⟨21, "E21", 3, "Carol", "Estimate Won", "2024-03-01T10:00:00+00:00"⟩
    [[⟨21, "E21", 3, "Carol", "Estimate Won", "2024-03-01T10:00:00+00:00"⟩]]
    ⟨3, "Carol", "2024-03-01T10:00:00+00:00",
      [⟨some "Carol", some "C", some true, [⟨some "(303) 555-1234"⟩], []⟩]⟩
    ⟨"o1", "c1", "stg_js", some "21"⟩
    "c1" [Effect.updateContactField "c1" "fld_sfcid" "3"] "stg_js"
    "2024-03-01T10:00:00+00:00" 1709287200
    rfl (by decide) rfl (by decide) rfl (by decide) (by decide) (by decide)
    (by decide) (by decide) (by decide) (by decide) (by decide)
  exact ⟨h.1, h.2.2⟩

/-- The inclusion test in existential form. -/
theorem isNewer_iff (parse : α → Option Int) (since : Int) (r : α) :
    isNewer parse since r = true ↔ ∃ t, parse r = some t ∧ since < t := by
  unfold isNewer
  cases h : parse r with
  | none => simp
  | some t => simp

/-- A page whose records are all strictly newer is appended whole and does
not trigger the early stop. -/
theorem pageScan_all_newer (parse : α → Option Int) (since : Int) :
    ∀ (items acc : List α),
    (∀ r ∈ items, isNewer parse since r = true) →
    pageScan parse since items acc = (acc ++ items, false) := by
  intro items
  induction items with
  | nil => intro acc _; simp [pageScan]
  | cons x xs ih =>
    intro acc hall
    have hx := hall x (by simp)
    cases ht : parse x with
    | none => simp [isNewer, ht] at hx
    | some t =>
      simp only [isNewer, ht, decide_eq_true_eq] at hx
      rw [show pageScan parse since (x :: xs) acc =
          pageScan parse since xs (acc ++ [x]) from by simp [pageScan, ht, hx]]
      rw [ih (acc ++ [x]) (fun r hr => hall r (by simp [hr]))]
      simp

/-- On a parsed, newest-first page holding some record that is not strictly
newer, the scan stops early and returns exactly the strictly newer prefix
(equivalently, the strictly newer records of the page). -/
theorem pageScan_stops (parse : α → Option Int) (since : Int) :
    ∀ (items acc : List α),
    parsesAll parse items →
    NewestFirst parse items →
    ¬ (∀ r ∈ items, isNewer parse since r = true) →
    pageScan parse since items acc =
      (acc ++ items.filter (isNewer parse since), true) := by
  intro items
  induction items with
  | nil => intro acc _ _ hbad; exact absurd (by simp) hbad
  | cons x xs ih =>
    intro acc hp hm hbad
    obtain ⟨t, ht⟩ := Option.isSome_iff_exists.mp (hp x (by simp))
    by_cases hn : since < t
    · have hxn : isNewer parse since x = true := by simp [isNewer, ht, hn]
      have hbad' : ¬ ∀ r ∈ xs, isNewer parse since r = true := by
        intro hall
        exact hbad (fun r hr => by
          rcases List.mem_cons.mp hr with rfl | hr
          · exact hxn
          · exact hall r hr)
      rw [show pageScan parse since (x :: xs) acc =
          pageScan parse since xs (acc ++ [x]) from by simp [pageScan, ht, hn]]
      rw [ih (acc ++ [x]) (fun r hr => hp r (by simp [hr]))
        (List.pairwise_cons.mp hm).2 hbad']
      simp [List.filter_cons, hxn]
    · have hfilter : (x :: xs).filter (isNewer parse since) = [] := by
        rw [List.filter_eq_nil_iff]
        intro b hb
        rcases List.mem_cons.mp hb with rfl | hb
        · simp [isNewer, ht, hn]
        · obtain ⟨tb, htb⟩ := Option.isSome_iff_exists.mp (hp b (by simp [hb]))
          have hle : (parse b).getD 0 ≤ (parse x).getD 0 :=
            (List.pairwise_cons.mp hm).1 b hb
          rw [ht, htb] at hle
          simp only [Option.getD_some] at hle
          have hnb : ¬ since < tb := fun hlt => hn (lt_of_lt_of_le hlt hle)
          simp [isNewer, htb, hnb]
      rw [show pageScan parse since (x :: xs) acc = (acc, true) from by
        simp [pageScan, ht, hn]]
      rw [hfilter]
      simp

/-- In a newest-first feed, once one record of the current page fails the
strictly-newer test, no record of the remaining pages passes it. -/
theorem filter_flatten_rest_nil (parse : α → Option Int) (since : Int)
    (items : List α) (rest : List (List α))
    (hp : parsesAll parse (items ++ rest.flatten))
    (hm : NewestFirst parse (items ++ rest.flatten))
    (hbad : ¬ ∀ r ∈ items, isNewer parse since r = true) :
    (rest.flatten).filter (isNewer parse since) = [] := by
  rw [List.filter_eq_nil_iff]
  intro b hb
  push_neg at hbad
  obtain ⟨r, hr, hrn⟩ := hbad
  obtain ⟨t, ht⟩ := Option.isSome_iff_exists.mp (hp r (List.mem_append_left _ hr))
  obtain ⟨tb, htb⟩ := Option.isSome_iff_exists.mp (hp b (List.mem_append_right _ hb))
  have hrn' : ¬ since < t := by
    intro h
    exact hrn (by simp [isNewer, ht, h])
  have hle : (parse b).getD 0 ≤ (parse r).getD 0 :=
    (List.pairwise_append.mp hm).2.2 r hr b hb
  rw [ht, htb] at hle
  simp only [Option.getD_some] at hle
  have hnb : ¬ since < tb := fun hlt => hrn' (lt_of_lt_of_le hlt hle)
  simp [isNewer, htb, hnb]

/-- Page-level soundness: the scan only ever adds records passing the
strictly-newer test. -/
theorem pageScan_sound (parse : α → Option Int) (since : Int) :
    ∀ (items acc : List α) (r : α),
    r ∈ (pageScan parse since items acc).1 →
    r ∈ acc ∨ isNewer parse since r = true := by
  intro items
  induction items with
  | nil => intro acc r h; left; simpa [pageScan] using h
  | cons x xs ih =>
    intro acc r h
    cases ht : parse x with
    | none =>
      rw [show pageScan parse since (x :: xs) acc =
          pageScan parse since xs acc from by simp [pageScan, ht]] at h
      exact ih acc r h
    | some t =>
      by_cases hn : since < t
      · rw [show pageScan parse since (x :: xs) acc =
            pageScan parse since xs (acc ++ [x]) from by simp [pageScan, ht, hn]] at h
        rcases ih (acc ++ [x]) r h with hmem | hnew
        · rcases List.mem_append.mp hmem with h1 | h2
          · exact Or.inl h1
          · right
            have hrx : r = x := by simpa using h2
            subst hrx
            simp [isNewer, ht, hn]
        · exact Or.inr hnew
      · rw [show pageScan parse since (x :: xs) acc = (acc, true) from by
          simp [pageScan, ht, hn]] at h
        exact Or.inl h

/-- Scan-level soundness: every returned record passes the
strictly-newer test (no record ≤ `since` is ever returned). -/
theorem getUpdatedScan_sound (parse : α → Option Int) (since : Int) (max : Nat) :
    ∀ (pages : List (List α)) (acc : List α) (r : α),
    r ∈ getUpdatedScan parse since max pages acc →
    r ∈ acc ∨ isNewer parse since r = true := by
  intro pages
  induction pages with
  | nil =>
    intro acc r h
    left
    exact List.take_subset _ _ (by simpa [getUpdatedScan] using h)
  | cons items rest ih =>
    intro acc r h
    by_cases hlen : acc.length < max
    · by_cases hemp : items.isEmpty
      · rw [show getUpdatedScan parse since max (items :: rest) acc =
            acc.take max from by simp [getUpdatedScan, hlen, hemp]] at h
        exact Or.inl (List.take_subset _ _ h)
      · rcases hps : pageScan parse since items acc with ⟨acc2, b⟩
        have hsub : ∀ x, x ∈ acc2 → x ∈ acc ∨ isNewer parse since x = true := by
          intro x hx
          have hx' : x ∈ (pageScan parse since items acc).1 := by
            rw [hps]; exact hx
          exact pageScan_sound parse since items acc x hx'
        cases b with
        | true =>
          rw [show getUpdatedScan parse since max (items :: rest) acc = acc2 from by
            simp [getUpdatedScan, hlen, hemp, hps]] at h
          exact hsub r h
        | false =>
          by_cases hshort : items.length < 50
          · rw [show getUpdatedScan parse since max (items :: rest) acc =
                acc2.take max from by
              simp [getUpdatedScan, hlen, hemp, hps, hshort]] at h
            exact hsub r (List.take_subset _ _ h)
          · rw [show getUpdatedScan parse since max (items :: rest) acc =
                getUpdatedScan parse since max rest acc2 from by
              simp [getUpdatedScan, hlen, hemp, hps, hshort]] at h
            rcases ih acc2 r h with h2 | h2
            · exact hsub r h2
            · exact Or.inr h2
    · rw [show getUpdatedScan parse since max (items :: rest) acc =
          acc.take max from by simp [getUpdatedScan, hlen]] at h
      exact Or.inl (List.take_subset _ _ h)

/-- Scan-level exactness on a parsed, newest-first, properly paginated
feed: the result is the strictly newer records, either whole (the early
stop path — no `max_results` cap there) or truncated to `max_results`. -/
theorem getUpdatedScan_exact (parse : α → Option Int) (since : Int) (max : Nat) :
    ∀ (pages : List (List α)) (acc : List α),
    parsesAll parse pages.flatten →
    NewestFirst parse pages.flatten →
    middleFull pages = true →
    getUpdatedScan parse since max pages acc =
        acc ++ (pages.flatten).filter (isNewer parse since) ∨
    getUpdatedScan parse since max pages acc =
        (acc ++ (pages.flatten).filter (isNewer parse since)).take max := by
  intro pages
  induction pages with
  | nil =>
    intro acc _ _ _
    right
    simp [getUpdatedScan]
  | cons items rest ih =>
    intro acc hp hm hmf
    rw [List.flatten_cons] at hp hm
    have hpI : parsesAll parse items := fun r hr => hp r (List.mem_append_left _ hr)
    have hmI : NewestFirst parse items := (List.pairwise_append.mp hm).1
    by_cases hlen : acc.length < max
    · by_cases hemp : items.isEmpty
      · have hit : items = [] := List.isEmpty_iff.mp hemp
        subst hit
        cases rest with
        | nil =>
          right
          simp [getUpdatedScan, hlen]
        | cons q qs =>
          exfalso
          have h2 : (([] : List α).length == 50 && middleFull (q :: qs)) = true := hmf
          simp at h2
      · by_cases hall : ∀ r ∈ items, isNewer parse since r = true
        · have hps := pageScan_all_newer parse since items acc hall
          have hfi : items.filter (isNewer parse since) = items :=
            List.filter_eq_self.mpr hall
          by_cases hshort : items.length < 50
          · cases rest with
            | nil =>
              right
              rw [show getUpdatedScan parse since max [items] acc =
                  (acc ++ items).take max from by
                simp [getUpdatedScan, hlen, hemp, hps, hshort]]
              simp [hfi]
            | cons q qs =>
              exfalso
              have h2 : (items.length == 50 && middleFull (q :: qs)) = true := hmf
              rw [Bool.and_eq_true] at h2
              have h3 := h2.1
              simp at h3
              omega
          · have hmf' : middleFull rest = true := by
              cases rest with
              | nil => rfl
              | cons q qs =>
                have h2 : (items.length == 50 && middleFull (q :: qs)) = true := hmf
                rw [Bool.and_eq_true] at h2
                exact h2.2
            have hp' : parsesAll parse rest.flatten :=
              fun r hr => hp r (List.mem_append_right _ hr)
            have hm' : NewestFirst parse rest.flatten :=
              (List.pairwise_append.mp hm).2.1
            have hrec := ih (acc ++ items) hp' hm' hmf'
            rw [show getUpdatedScan parse since max (items :: rest) acc =
                getUpdatedScan parse since max rest (acc ++ items) from by
              simp [getUpdatedScan, hlen, hemp, hps, hshort]]
            rcases hrec with h2 | h2
            · left
              rw [h2]
              simp [List.filter_append, hfi]
            · right
              rw [h2]
              simp [List.filter_append, hfi]
        · left
          have hps := pageScan_stops parse since items acc hpI hmI hall
          have hrest := filter_flatten_rest_nil parse since items rest hp hm hall
          rw [show getUpdatedScan parse since max (items :: rest) acc =
              acc ++ items.filter (isNewer parse since) from by
            simp [getUpdatedScan, hlen, hemp, hps]]
          simp [List.filter_append, hrest]
    · right
      rw [show getUpdatedScan parse since max (items :: rest) acc =
          acc.take max from by simp [getUpdatedScan, hlen]]
      exact (List.take_append_of_le_length (Nat.le_of_not_lt hlen)).symm

/-- C1 counterexample: a monotone newest-first single page with three
strictly newer customers followed by an older one, with `max_results = 2`:
the early-termination return skips the `[:max_results]` truncation and
hands back three records — more than `max_results`. -/
theorem claim1_counterexample :
    (get_updated_customers
      [[⟨1, "A", "2024-03-01T12:00:00+00:00", []⟩,
        ⟨2, "B", "2024-03-01T11:00:00+00:00", []⟩,
        ⟨3, "C", "2024-03-01T10:00:00+00:00", []⟩,
        ⟨4, "D", "2024-03-01T07:00:00+00:00", []⟩]]
      1709280000 2).length = 3 ∧
    ¬ (get_updated_customers
      [[⟨1, "A", "2024-03-01T12:00:00+00:00", []⟩,
        ⟨2, "B", "2024-03-01T11:00:00+00:00", []⟩,
        ⟨3, "C", "2024-03-01T10:00:00+00:00", []⟩,
        ⟨4, "D", "2024-03-01T07:00:00+00:00", []⟩]]
      1709280000 2).length ≤ 2 := by
  decide

/-- C1 amended: the `get_updated_*` scans never return a record whose
computed timestamp fails to parse or is ≤ `since`; and on a fully parsed,
monotonically newest-first feed with full intermediate pages the result is
exactly the strictly newer records — truncated to `max_results` on the
end-of-data and loop-condition exits, but returned whole (possibly longer
than `max_results`) on the early-termination exit. -/
theorem claim1_amended :
    (∀ (pages : List (List SFCustomer)) (since : Int) (max : Nat)
        (r : SFCustomer), r ∈ get_updated_customers pages since max →
      ∃ t, SFCustomer.updated_at_datetime r = some t ∧ since < t) ∧
    (∀ (cfg : Config) (pages : List (List SFJob)) (since : Int) (max : Nat)
        (r : SFJob), r ∈ get_updated_jobs cfg pages since max →
      ∃ t, SFJob.updated_at_datetime cfg r = some t ∧ since < t) ∧
    (∀ (cfg : Config) (pages : List (List SFEstimate)) (since : Int) (max : Nat)
        (r : SFEstimate), r ∈ get_updated_estimates cfg pages since max →
      ∃ t, SFEstimate.updated_at_datetime cfg r = some t ∧ since < t) ∧
    (∀ (pages : List (List SFCustomer)) (since : Int) (max : Nat),
      parsesAll SFCustomer.updated_at_datetime pages.flatten →
      NewestFirst SFCustomer.updated_at_datetime pages.flatten →
      middleFull pages = true →
      get_updated_customers pages since max =
          pages.flatten.filter (isNewer SFCustomer.updated_at_datetime since) ∨
      get_updated_customers pages since max =
          (pages.flatten.filter (isNewer SFCustomer.updated_at_datetime since)).take
            max) ∧
    (∀ (cfg : Config) (pages : List (List SFJob)) (since : Int) (max : Nat),
      parsesAll (SFJob.updated_at_datetime cfg) pages.flatten →
      NewestFirst (SFJob.updated_at_datetime cfg) pages.flatten →
      middleFull pages = true →
      get_updated_jobs cfg pages since max =
          pages.flatten.filter (isNewer (SFJob.updated_at_datetime cfg) since) ∨
      get_updated_jobs cfg pages since max =
          (pages.flatten.filter (isNewer (SFJob.updated_at_datetime cfg) since)).take
            max) ∧
    (∀ (cfg : Config) (pages : List (List SFEstimate)) (since : Int) (max : Nat),
      parsesAll (SFEstimate.updated_at_datetime cfg) pages.flatten →
      NewestFirst (SFEstimate.updated_at_datetime cfg) pages.flatten →
      middleFull pages = true →
      get_updated_estimates cfg pages since max =
          pages.flatten.filter
            (isNewer (SFEstimate.updated_at_datetime cfg) since) ∨
      get_updated_estimates cfg pages since max =
          (pages.flatten.filter
            (isNewer (SFEstimate.updated_at_datetime cfg) since)).take max) := by
  refine ⟨?_, ?_, ?_, ?_, ?_, ?_⟩
  · intro pages since max r h
    rcases getUpdatedScan_sound SFCustomer.updated_at_datetime since max pages [] r h
      with h2 | h2
    · simp at h2
    · exact (isNewer_iff _ _ _).mp h2
  · intro cfg pages since max r h
    rcases getUpdatedScan_sound (SFJob.updated_at_datetime cfg) since max pages [] r h
      with h2 | h2
    · simp at h2
    · exact (isNewer_iff _ _ _).mp h2
  · intro cfg pages since max r h
    rcases getUpdatedScan_sound (SFEstimate.updated_at_datetime cfg) since max pages
      [] r h with h2 | h2
    · simp at h2
    · exact (isNewer_iff _ _ _).mp h2
  · intro pages since max hp hm hmf
    have h := getUpdatedScan_exact SFCustomer.updated_at_datetime since max pages []
      hp hm hmf
    simpa [get_updated_customers] using h
  · intro cfg pages since max hp hm hmf
    have h := getUpdatedScan_exact (SFJob.updated_at_datetime cfg) since max pages []
      hp hm hmf
    simpa [get_updated_jobs] using h
  · intro cfg pages since max hp hm hmf
    have h := getUpdatedScan_exact (SFEstimate.updated_at_datetime cfg) since max
      pages [] hp hm hmf
    simpa [get_updated_estimates] using h

/-- C1 witness: on a concrete two-customer newest-first page the listing is
exactly the strictly newer records (both here), possibly capped at
`max_results = 1`. -/
theorem claim1_witness :
    get_updated_customers
        [[⟨1, "A", "2024-03-01T12:00:00+00:00", []⟩,
          ⟨2, "B", "2024-03-01T11:00:00+00:00", []⟩]] 1709280000 1 =
      ([[⟨1, "A", "2024-03-01T12:00:00+00:00", []⟩,
          ⟨2, "B", "2024-03-01T11:00:00+00:00", []⟩]] :
        List (List SFCustomer)).flatten.filter
          (isNewer SFCustomer.updated_at_datetime 1709280000) ∨
    get_updated_customers
        [[⟨1, "A", "2024-03-01T12:00:00+00:00", []⟩,
          ⟨2, "B", "2024-03-01T11:00:00+00:00", []⟩]] 1709280000 1 =
      (([[⟨1, "A", "2024-03-01T12:00:00+00:00", []⟩,
          ⟨2, "B", "2024-03-01T11:00:00+00:00", []⟩]] :
        List (List SFCustomer)).flatten.filter
          (isNewer SFCustomer.updated_at_datetime 1709280000)).take 1 :=
  claim1_amended.2.2.2.1
    [[⟨1, "A", "2024-03-01T12:00:00+00:00", []⟩,
      ⟨2, "B", "2024-03-01T11:00:00+00:00", []⟩]] 1709280000 1
    (by decide) (by decide) (by decide)

/-- `find?` returns the unique element satisfying the test. -/
theorem find?_eq_some_of_unique {γ : Type} {p : γ → Bool} {l : List γ} {o : γ}
    (hmem : o ∈ l) (hp : p o = true) (huniq : ∀ x ∈ l, p x = true → x = o) :
    l.find? p = some o := by
  induction l with
  | nil => cases hmem
  | cons x xs ih =>
    rcases List.mem_cons.mp hmem with rfl | hmem'
    · rw [List.find?_cons_of_pos _ hp]
    · by_cases hx : p x = true
      · have hxo : x = o := huniq x (by simp) hx
        subst hxo
        rw [List.find?_cons_of_pos _ hx]
      · rw [List.find?_cons_of_neg _ (by simpa using hx)]
        exact ih hmem' (fun y hy hpy => huniq y (by simp [hy]) hpy)

/-- `find?` over a mapped list, when the test rejects every image. -/
theorem find?_map_eq_none {γ : Type} (f : γ → γ) (p : γ → Bool) (l : List γ)
    (h : ∀ x ∈ l, p (f x) = false) : (l.map f).find? p = none := by
  rw [List.find?_map]
  have h2 : l.find? (p ∘ f) = none :=
    List.find?_eq_none.mpr (fun x hx => by simp [Function.comp, h x hx])
  rw [h2]
  rfl

/-- `find?` over a mapped list, when exactly one element's image passes. -/
theorem find?_map_eq_some {γ : Type} (f : γ → γ) (p : γ → Bool) (l : List γ)
    (o : γ) (hmem : o ∈ l) (hp : p (f o) = true)
    (huniq : ∀ x ∈ l, p (f x) = true → x = o) :
    (l.map f).find? p = some (f o) := by
  rw [List.find?_map]
  rw [find?_eq_some_of_unique hmem (show (p ∘ f) o = true from hp)
    (fun x hx hpx => huniq x hx hpx)]
  rfl

/-- Each effect keeps the Service Fusion data, the estimate feed and the
id-assignment fields of the world unchanged. -/
theorem applyEffect_fields (w : World) (e : Effect) :
    (applyEffect w e).estimateFetch = w.estimateFetch ∧
    (applyEffect w e).sfCustomers = w.sfCustomers ∧
    (applyEffect w e).upsertResultId = w.upsertResultId ∧
    (applyEffect w e).createOppResultId = w.createOppResultId := by
  cases e
  case updateOppCustomField oid k v =>
    simp only [applyEffect]
    split <;> exact ⟨rfl, rfl, rfl, rfl⟩
  all_goals exact ⟨rfl, rfl, rfl, rfl⟩

/-- `applyEffects` version of `applyEffect_fields`. -/
theorem applyEffects_fields (l : List Effect) : ∀ w : World,
    (applyEffects w l).estimateFetch = w.estimateFetch ∧
    (applyEffects w l).sfCustomers = w.sfCustomers ∧
    (applyEffects w l).upsertResultId = w.upsertResultId ∧
    (applyEffects w l).createOppResultId = w.createOppResultId := by
  induction l with
  | nil => intro w; exact ⟨rfl, rfl, rfl, rfl⟩
  | cons e es ih =>
    intro w
    have h1 := applyEffect_fields w e
    have h2 := ih (applyEffect w e)
    exact ⟨h2.1.trans h1.1, (h2.2.1).trans h1.2.1,
      (h2.2.2.1).trans h1.2.2.1, (h2.2.2.2).trans h1.2.2.2⟩

/-- The conversion check reads only the estimate feed of the world. -/
theorem convStep_congr (cfg : Config) (w w' : World) (wo : WorkOrder)
    (h : w'.estimateFetch = w.estimateFetch) :
    convStep cfg w' wo = convStep cfg w wo := by
  cases wo with
  | estimate e => rfl
  | job j =>
    unfold convStep find_converted_estimate_for_job
    rw [h]

/-- Contact lookup reads only the contact directory of the world. -/
theorem lookup_contact_congr (w w' : World) (cust : SFCustomer)
    (h : w'.contacts = w.contacts) :
    lookup_contact w' cust = lookup_contact w cust := by
  unfold lookup_contact search_contact_by_phone search_contact_by_email
  rw [h]

/-- Contact resolution reads only the contact directory and the upsert
result id. -/
theorem resolve_contact_congr (cfg : Config) (w w' : World) (cust : SFCustomer)
    (hc : w'.contacts = w.contacts) (hu : w'.upsertResultId = w.upsertResultId) :
    resolve_contact cfg w' cust = resolve_contact cfg w cust := by
  unfold resolve_contact
  rw [lookup_contact_congr w w' cust hc, hu]

/-- After the contact upsert, the phone (or, failing that, email) search
finds the freshly created contact. -/
theorem lookup_contact_after_upsert (w : World) (cust : SFCustomer) (uid : String)
    (hlk : lookup_contact w cust = none)
    (hinfo : (optStrFalsy cust.phone && optStrFalsy cust.email) = false) :
    lookup_contact
      { w with contacts := w.contacts ++
          [⟨uid, optTruthy cust.phone, optTruthy cust.email⟩] } cust =
      some ⟨uid, optTruthy cust.phone, optTruthy cust.email⟩ := by
  unfold lookup_contact search_contact_by_phone search_contact_by_email at hlk ⊢
  rcases hph : cust.phone with _ | p <;> rcases hem : cust.email with _ | e <;>
    rw [hph, hem] at hlk hinfo <;> dsimp only at hlk ⊢
  · simp [optStrFalsy] at hinfo
  · simp only [optStrFalsy, Bool.true_and] at hinfo
    simp only [hinfo, Bool.false_eq_true, if_false] at hlk ⊢
    rw [List.find?_append, hlk]
    simp [optTruthy, hinfo]
  · simp only [optStrFalsy, Bool.and_true] at hinfo
    simp only [hinfo, Bool.false_eq_true, if_false] at hlk ⊢
    have hlk1 : w.contacts.find? (fun c => c.phone == some p) = none := by
      cases hfp : w.contacts.find? (fun c => c.phone == some p) with
      | none => rfl
      | some c => rw [hfp] at hlk; simp at hlk
    rw [List.find?_append, hlk1]
    simp [optTruthy, hinfo]
  · simp only [optStrFalsy] at hinfo
    by_cases hpe : p.isEmpty
    · have hee : e.isEmpty = false := by
        rw [hpe] at hinfo
        simpa using hinfo
      simp only [hpe, if_true] at hlk ⊢
      simp only [hee, Bool.false_eq_true, if_false] at hlk ⊢
      rw [List.find?_append, hlk]
      simp [optTruthy, hpe, hee]
    · have hpe' : p.isEmpty = false := by simpa using hpe
      simp only [hpe', Bool.false_eq_true, if_false] at hlk ⊢
      have hlk1 : w.contacts.find? (fun c => c.phone == some p) = none := by
        cases hfp : w.contacts.find? (fun c => c.phone == some p) with
        | none => rfl
        | some c => rw [hfp] at hlk; simp at hlk
      rw [List.find?_append, hlk1]
      simp [optTruthy, hpe']

/-- The contact-resolution step never issues an opportunity mutation. -/
theorem resolve_contact_filter_opp (cfg : Config) (w : World) (cust : SFCustomer) :
    ((resolve_contact cfg w cust).2).filter isOppMutation = [] := by
  rcases resolve_contact_shape cfg w cust with ⟨c0, _, h⟩ | ⟨_, h⟩ <;> rw [h] <;> rfl

/-- Opportunity search reads only the opportunity list of the world. -/
theorem search_opp_congr (w w' : World) (cid tag : String)
    (h : w'.opps = w.opps) :
    search_opportunity_by_job_id w' cid tag =
      search_opportunity_by_job_id w cid tag := by
  unfold search_opportunity_by_job_id
  rw [h]

/-- What a successful opportunity search says about its result. -/
theorem search_opp_some_props {w : World} {cid tag : String} {o : GHLOpp}
    (h : search_opportunity_by_job_id w cid tag = some o) :
    o ∈ w.opps ∧ o.contactId = cid ∧ o.crmJobId = some tag := by
  unfold search_opportunity_by_job_id at h
  have hp := List.find?_some h
  simp only [Bool.and_eq_true, beq_iff_eq] at hp
  exact ⟨List.mem_of_find?_eq_some h, hp.1, hp.2⟩

/-- What a failed opportunity search says about the world. -/
theorem search_opp_none_props {w : World} {cid tag : String}
    (h : search_opportunity_by_job_id w cid tag = none) :
    ∀ x ∈ w.opps, ¬(x.contactId = cid ∧ x.crmJobId = some tag) := by
  unfold search_opportunity_by_job_id at h
  intro x hx
  have h2 := List.find?_eq_none.mp h x hx
  simpa [Bool.and_eq_true, beq_iff_eq] using h2

/-- A stage-only update on one opportunity id commutes with the tag-based
search: the same opportunity is found, with its stage rewritten. -/
theorem search_opp_stage_update (w : World) (cid tag oid g : String) :
    search_opportunity_by_job_id
      { w with opps := w.opps.map (fun x =>
          if x.id = oid then { x with pipelineStageId := g } else x) } cid tag =
    (search_opportunity_by_job_id w cid tag).map (fun x =>
          if x.id = oid then { x with pipelineStageId := g } else x) := by
  unfold search_opportunity_by_job_id
  rw [List.find?_map]
  have hpf : ((fun (o : GHLOpp) => o.contactId == cid && o.crmJobId == some tag) ∘
      (fun (x : GHLOpp) =>
        if x.id = oid then { x with pipelineStageId := g } else x)) =
      (fun (o : GHLOpp) => o.contactId == cid && o.crmJobId == some tag) := by
    funext x
    by_cases h : x.id = oid <;> simp [h, Function.comp]
  rw [hpf]

/-- Appending opportunities extends the search on the right. -/
theorem search_opp_append (w : World) (cid tag : String) (l : List GHLOpp) :
    search_opportunity_by_job_id { w with opps := w.opps ++ l } cid tag =
      ((search_opportunity_by_job_id w cid tag).or
        (l.find? (fun o => o.contactId == cid && o.crmJobId == some tag))) := by
  unfold search_opportunity_by_job_id
  rw [List.find?_append]


/-- Effect traces compose. -/
theorem applyEffects_append (w : World) (l1 l2 : List Effect) :
    applyEffects w (l1 ++ l2) = applyEffects (applyEffects w l1) l2 := by
  unfold applyEffects
  exact List.foldl_append _ _ _ _

/-- Distinct strings are `BEq`-false under `some`. -/
theorem beq_some_ne {a b : String} (h : a ≠ b) :
    ((some a == some b) : Bool) = false := by
  simp [beq_eq_false_iff_ne, h]

/-- Generic shape of a fully successful repeat invocation: once the
conversion-tag search finds nothing, the work order's own tag resolves to
an opportunity already in the mapped stage, so the only effects are the
contact-resolution ones — no opportunity mutation. -/
theorem sync_second_generic (cfg : Config) (w' : World) (wo : WorkOrder)
    (conv : Option Int) (g : String) (cust : SFCustomer) (cid2 : String)
    (o2 : GHLOpp)
    (hcv2 : convStep cfg w' wo = .ok conv)
    (hst : pyDictGet (sf_to_ghl_stage_map cfg.settings) wo.status = some g)
    (hg : g.isEmpty = false)
    (hcust2 : w'.sfCustomers.find? (fun c => c.id == wo.customer_id) = some cust)
    (hinfo : (optStrFalsy cust.phone && optStrFalsy cust.email) = false)
    (hrcX : (resolve_contact cfg w' cust).1 = cid2)
    (hcid2 : cid2.isEmpty = false)
    (hconv2 : ∀ eid, conv = some eid →
      search_opportunity_by_job_id w' cid2 (toString eid) = none)
    (hwo2 : search_opportunity_by_job_id w' cid2 (toString wo.id) = some o2)
    (hstage2 : o2.pipelineStageId = g) :
    (sync_work_order_to_ghl cfg w' wo).2.filter isOppMutation = [] := by
  have hfilter := resolve_contact_filter_opp cfg w' cust
  rcases hrc : resolve_contact cfg w' cust with ⟨c2, ceffs2⟩
  rw [hrc] at hrcX hfilter
  dsimp only at hrcX hfilter
  subst hrcX
  have hro : resolve_opportunity w' wo conv c2 = (some o2, []) := by
    cases conv with
    | none => simp [resolve_opportunity, hwo2]
    | some eid => simp [resolve_opportunity, hconv2 eid rfl, hwo2]
  have hs : sync_work_order_to_ghl cfg w' wo = (.success, ceffs2) := by
    simp [sync_work_order_to_ghl, hcv2, hst, hg, hcust2, hinfo, hrc, hcid2, hro,
      hstage2]
  rw [hs]
  exact hfilter

/-- Core of the repeat-invocation analysis: with the contact step resolved
(first-call result `(cid, ceffs)`, post-contact world `w₂`, stable
second-call contact id), a first call that reaches the opportunity phase
leaves a world in which the second call issues no opportunity mutation. -/
theorem sync_repeat_core (cfg : Config) (w w₂ : World) (wo : WorkOrder)
    (conv : Option Int) (g : String) (cust : SFCustomer) (cid : String)
    (ceffs : List Effect)
    (hids : ∀ a ∈ w.opps, ∀ b ∈ w.opps, a.id = b.id → a = b)
    (hconvP : ∀ eid, conv = some eid →
      toString eid ≠ toString wo.id ∧
      (∀ a ∈ w.opps, ∀ b ∈ w.opps, a.contactId = b.contactId →
        a.crmJobId = some (toString eid) → b.crmJobId = some (toString eid) →
        a = b) ∧
      (∀ a ∈ w.opps, ∀ b ∈ w.opps, a.contactId = b.contactId →
        a.crmJobId = some (toString eid) →
        b.crmJobId ≠ some (toString wo.id)))
    (hcv : convStep cfg w wo = .ok conv)
    (hst : pyDictGet (sf_to_ghl_stage_map cfg.settings) wo.status = some g)
    (hg : g.isEmpty = false)
    (hcust : w.sfCustomers.find? (fun c => c.id == wo.customer_id) = some cust)
    (hinfo : (optStrFalsy cust.phone && optStrFalsy cust.email) = false)
    (hrc : resolve_contact cfg w cust = (cid, ceffs))
    (hcid : cid.isEmpty = false)
    (hw2 : applyEffects w ceffs = w₂)
    (hw2o : w₂.opps = w.opps)
    (hw2f : w₂.estimateFetch = w.estimateFetch)
    (hw2s : w₂.sfCustomers = w.sfCustomers)
    (hw2u : w₂.upsertResultId = w.upsertResultId)
    (hrc2 : ∀ X : World, X.contacts = w₂.contacts →
      X.upsertResultId = w.upsertResultId →
      (resolve_contact cfg X cust).1 = cid) :
    ((sync_work_order_to_ghl cfg
        (applyEffects w (sync_work_order_to_ghl cfg w wo).2) wo).2.filter
      isOppMutation) = [] := by
  classical
  cases conv with
  | none =>
    cases hs2 : search_opportunity_by_job_id w cid (toString wo.id) with
    | some o =>
      by_cases hstg : o.pipelineStageId = g
      · have he : sync_work_order_to_ghl cfg w wo = (.success, ceffs) := by
          simp [sync_work_order_to_ghl, hcv, hst, hg, hcust, hinfo, hrc, hcid,
            resolve_opportunity, hs2, hstg]
        rw [show applyEffects w (sync_work_order_to_ghl cfg w wo).2 = w₂ from by
          rw [he]; exact hw2]
        refine sync_second_generic cfg w₂ wo none g cust cid o ?_ hst hg ?_
          hinfo ?_ hcid (fun eid h => by cases h) ?_ hstg
        · exact (convStep_congr cfg w w₂ wo hw2f).trans hcv
        · rw [hw2s]; exact hcust
        · exact hrc2 w₂ rfl hw2u
        · rw [search_opp_congr w w₂ cid (toString wo.id) hw2o]
          exact hs2
      · have he : sync_work_order_to_ghl cfg w wo =
            (.success, ceffs ++ [Effect.updateOpportunityStage o.id g]) := by
          simp [sync_work_order_to_ghl, hcv, hst, hg, hcust, hinfo, hrc, hcid,
            resolve_opportunity, hs2, hstg]
        rw [show applyEffects w (sync_work_order_to_ghl cfg w wo).2 =
            { w₂ with opps := w₂.opps.map (fun x =>
                if x.id = o.id then { x with pipelineStageId := g } else x) } from by
          rw [he, applyEffects_append, hw2]; rfl]
        refine sync_second_generic cfg _ wo none g cust cid
          (if o.id = o.id then { o with pipelineStageId := g } else o) ?_ hst hg ?_
          hinfo ?_ hcid (fun eid h => by cases h) ?_ (by simp)
        · exact (convStep_congr cfg w _ wo hw2f).trans hcv
        · show w₂.sfCustomers.find? _ = _
          rw [hw2s]; exact hcust
        · exact hrc2 _ rfl hw2u
        · rw [search_opp_stage_update w₂ cid (toString wo.id) o.id g]
          rw [search_opp_congr w w₂ cid (toString wo.id) hw2o, hs2]
          rfl
    | none =>
      have he : sync_work_order_to_ghl cfg w wo =
          (.success, ceffs ++
            [Effect.createOpportunity cid g (toString wo.id)]) := by
        simp [sync_work_order_to_ghl, hcv, hst, hg, hcust, hinfo, hrc, hcid,
          resolve_opportunity, hs2]
      rw [show applyEffects w (sync_work_order_to_ghl cfg w wo).2 =
          { w₂ with opps := w₂.opps ++
              [⟨w₂.createOppResultId, cid, g, some (toString wo.id)⟩] } from by
        rw [he, applyEffects_append, hw2]; rfl]
      refine sync_second_generic cfg _ wo none g cust cid
        ⟨w₂.createOppResultId, cid, g, some (toString wo.id)⟩ ?_ hst hg ?_
        hinfo ?_ hcid (fun eid h => by cases h) ?_ rfl
      · exact (convStep_congr cfg w _ wo hw2f).trans hcv
      · show w₂.sfCustomers.find? _ = _
        rw [hw2s]; exact hcust
      · exact hrc2 _ rfl hw2u
      · rw [search_opp_append w₂ cid (toString wo.id)
          [⟨w₂.createOppResultId, cid, g, some (toString wo.id)⟩]]
        rw [search_opp_congr w w₂ cid (toString wo.id) hw2o, hs2]
        simp
  | some eid =>
    obtain ⟨hne, huniq, hnoco⟩ := hconvP eid rfl
    cases hs1 : search_opportunity_by_job_id w cid (toString eid) with
    | some o =>
      obtain ⟨hoMem, hoCid, hoTag⟩ := search_opp_some_props hs1
      by_cases hstg : o.pipelineStageId = g
      · have he : sync_work_order_to_ghl cfg w wo =
            (.success, ceffs ++
              [Effect.updateOppCustomField o.id "crm_job_id"
                (toString wo.id)]) := by
          simp [sync_work_order_to_ghl, hcv, hst, hg, hcust, hinfo, hrc, hcid,
            resolve_opportunity, hs1, hstg]
        rw [show applyEffects w (sync_work_order_to_ghl cfg w wo).2 =
            { w₂ with opps := w₂.opps.map (fun x =>
                if x.id = o.id then { x with crmJobId := some (toString wo.id) }
                else x) } from by
          rw [he, applyEffects_append, hw2]; rfl]
        refine sync_second_generic cfg _ wo (some eid) g cust cid
          { o with crmJobId := some (toString wo.id) } ?_ hst hg ?_
          hinfo ?_ hcid ?_ ?_ hstg
        · exact (convStep_congr cfg w _ wo hw2f).trans hcv
        · show w₂.sfCustomers.find? _ = _
          rw [hw2s]; exact hcust
        · exact hrc2 _ rfl hw2u
        · intro eid' heq
          cases heq
          show (w₂.opps.map _).find? _ = none
          refine find?_map_eq_none _ _ _ ?_
          intro x hx
          rw [hw2o] at hx
          by_cases hid : x.id = o.id
          · have hxo : x = o := hids x hx o hoMem hid
            subst hxo
            simp [beq_some_ne (Ne.symm hne)]
          · simp only [hid, if_false]
            by_cases hpx :
                (x.contactId == cid && x.crmJobId == some (toString eid)) = true
            · exfalso
              simp only [Bool.and_eq_true, beq_iff_eq] at hpx
              have hxo : x = o :=
                huniq x hx o hoMem (hpx.1.trans hoCid.symm) hpx.2 hoTag
              exact hid (by rw [hxo])
            · simpa using hpx
        · show (w₂.opps.map _).find? _ = some _
          have hfm := find?_map_eq_some
            (fun x => if x.id = o.id
              then { x with crmJobId := some (toString wo.id) } else x)
            (fun x => x.contactId == cid && x.crmJobId == some (toString wo.id))
            w₂.opps o (by rw [hw2o]; exact hoMem)
            (by simp [hoCid])
            ?_
          · rw [hfm]
            simp
          · intro x hx hpx
            rw [hw2o] at hx
            by_cases hid : x.id = o.id
            · exact hids x hx o hoMem hid
            · exfalso
              simp only [hid, if_false, Bool.and_eq_true, beq_iff_eq] at hpx
              exact hnoco o hoMem x hx (hoCid.trans hpx.1.symm) hoTag hpx.2
      · have he : sync_work_order_to_ghl cfg w wo =
            (.success, ceffs ++
              [Effect.updateOppCustomField o.id "crm_job_id" (toString wo.id),
               Effect.updateOpportunityStage o.id g]) := by
          simp [sync_work_order_to_ghl, hcv, hst, hg, hcust, hinfo, hrc, hcid,
            resolve_opportunity, hs1, hstg]
        rw [show applyEffects w (sync_work_order_to_ghl cfg w wo).2 =
            { w₂ with opps := (w₂.opps.map (fun x =>
                if x.id = o.id then { x with crmJobId := some (toString wo.id) }
                else x)).map (fun x =>
                if x.id = o.id then { x with pipelineStageId := g } else x) } from by
          rw [he, applyEffects_append, hw2]; rfl]
        refine sync_second_generic cfg _ wo (some eid) g cust cid
          { o with crmJobId := some (toString wo.id), pipelineStageId := g }
          ?_ hst hg ?_ hinfo ?_ hcid ?_ ?_ rfl
        · exact (convStep_congr cfg w _ wo hw2f).trans hcv
        · show w₂.sfCustomers.find? _ = _
          rw [hw2s]; exact hcust
        · exact hrc2 _ rfl hw2u
        · intro eid' heq
          cases heq
          show ((w₂.opps.map _).map _).find? _ = none
          rw [List.map_map]
          refine find?_map_eq_none _ _ _ ?_
          intro x hx
          rw [hw2o] at hx
          by_cases hid : x.id = o.id
          · have hxo : x = o := hids x hx o hoMem hid
            subst hxo
            simp [Function.comp, beq_some_ne (Ne.symm hne)]
          · simp only [Function.comp, hid, if_false]
            by_cases hpx :
                (x.contactId == cid && x.crmJobId == some (toString eid)) = true
            · exfalso
              simp only [Bool.and_eq_true, beq_iff_eq] at hpx
              have hxo : x = o :=
                huniq x hx o hoMem (hpx.1.trans hoCid.symm) hpx.2 hoTag
              exact hid (by rw [hxo])
            · simpa using hpx
        · show ((w₂.opps.map _).map _).find? _ = some _
          rw [List.map_map]
          have hfm := find?_map_eq_some
            ((fun (x : GHLOpp) =>
              if x.id = o.id then { x with pipelineStageId := g } else x) ∘
             (fun (x : GHLOpp) =>
              if x.id = o.id then { x with crmJobId := some (toString wo.id) }
              else x))
            (fun x => x.contactId == cid && x.crmJobId == some (toString wo.id))
            w₂.opps o (by rw [hw2o]; exact hoMem)
            (by simp [Function.comp, hoCid])
            ?_
          · rw [hfm]
            simp [Function.comp]
          · intro x hx hpx
            rw [hw2o] at hx
            by_cases hid : x.id = o.id
            · exact hids x hx o hoMem hid
            · exfalso
              simp only [Function.comp, hid, if_false, Bool.and_eq_true,
                beq_iff_eq] at hpx
              exact hnoco o hoMem x hx (hoCid.trans hpx.1.symm) hoTag hpx.2
    | none =>
      cases hs2 : search_opportunity_by_job_id w cid (toString wo.id) with
      | some o =>
        by_cases hstg : o.pipelineStageId = g
        · have he : sync_work_order_to_ghl cfg w wo = (.success, ceffs) := by
            simp [sync_work_order_to_ghl, hcv, hst, hg, hcust, hinfo, hrc, hcid,
              resolve_opportunity, hs1, hs2, hstg]
          rw [show applyEffects w (sync_work_order_to_ghl cfg w wo).2 = w₂ from by
            rw [he]; exact hw2]
          refine sync_second_generic cfg w₂ wo (some eid) g cust cid o ?_ hst hg
            ?_ hinfo ?_ hcid ?_ ?_ hstg
          · exact (convStep_congr cfg w w₂ wo hw2f).trans hcv
          · rw [hw2s]; exact hcust
          · exact hrc2 w₂ rfl hw2u
          · intro eid' heq
            cases heq
            rw [search_opp_congr w w₂ cid (toString eid) hw2o]
            exact hs1
          · rw [search_opp_congr w w₂ cid (toString wo.id) hw2o]
            exact hs2
        · have he : sync_work_order_to_ghl cfg w wo =
              (.success, ceffs ++ [Effect.updateOpportunityStage o.id g]) := by
            simp [sync_work_order_to_ghl, hcv, hst, hg, hcust, hinfo, hrc, hcid,
              resolve_opportunity, hs1, hs2, hstg]
          rw [show applyEffects w (sync_work_order_to_ghl cfg w wo).2 =
              { w₂ with opps := w₂.opps.map (fun x =>
                  if x.id = o.id then { x with pipelineStageId := g } else x) } from by
            rw [he, applyEffects_append, hw2]; rfl]
          refine sync_second_generic cfg _ wo (some eid) g cust cid
            (if o.id = o.id then { o with pipelineStageId := g } else o) ?_ hst hg
            ?_ hinfo ?_ hcid ?_ ?_ (by simp)
          · exact (convStep_congr cfg w _ wo hw2f).trans hcv
          · show w₂.sfCustomers.find? _ = _
            rw [hw2s]; exact hcust
          · exact hrc2 _ rfl hw2u
          · intro eid' heq
            cases heq
            rw [search_opp_stage_update w₂ cid (toString eid) o.id g]
            rw [search_opp_congr w w₂ cid (toString eid) hw2o, hs1]
            rfl
          · rw [search_opp_stage_update w₂ cid (toString wo.id) o.id g]
            rw [search_opp_congr w w₂ cid (toString wo.id) hw2o, hs2]
            rfl
      | none =>
        have he : sync_work_order_to_ghl cfg w wo =
            (.success, ceffs ++
              [Effect.createOpportunity cid g (toString wo.id)]) := by
          simp [sync_work_order_to_ghl, hcv, hst, hg, hcust, hinfo, hrc, hcid,
            resolve_opportunity, hs1, hs2]
        rw [show applyEffects w (sync_work_order_to_ghl cfg w wo).2 =
            { w₂ with opps := w₂.opps ++
                [⟨w₂.createOppResultId, cid, g, some (toString wo.id)⟩] } from by
          rw [he, applyEffects_append, hw2]; rfl]
        refine sync_second_generic cfg _ wo (some eid) g cust cid
          ⟨w₂.createOppResultId, cid, g, some (toString wo.id)⟩ ?_ hst hg ?_
          hinfo ?_ hcid ?_ ?_ rfl
        · exact (convStep_congr cfg w _ wo hw2f).trans hcv
        · show w₂.sfCustomers.find? _ = _
          rw [hw2s]; exact hcust
        · exact hrc2 _ rfl hw2u
        · intro eid' heq
          cases heq
          rw [search_opp_append w₂ cid (toString eid)
            [⟨w₂.createOppResultId, cid, g, some (toString wo.id)⟩]]
          rw [search_opp_congr w w₂ cid (toString eid) hw2o, hs1]
          simp [beq_some_ne (Ne.symm hne)]
        · rw [search_opp_append w₂ cid (toString wo.id)
            [⟨w₂.createOppResultId, cid, g, some (toString wo.id)⟩]]
          rw [search_opp_congr w w₂ cid (toString wo.id) hw2o, hs2]
          simp

/-- C3 amended: under per-id unique opportunities and (when conversion
detection fires) a unique estimate tag that does not coexist with the
job's own tag, running `sync_work_order_to_ghl` again on the world left by
the first run issues **no opportunity mutation** — no create, no stage
update, no custom-field update; the stage comparison (or the absence of
any difference) short-circuits them all.  (The contact custom-field write
is re-issued; that is the corrected part of the claim.) -/
theorem claim3_amended (cfg : Config) (w : World) (wo : WorkOrder)
    (hids : ∀ a ∈ w.opps, ∀ b ∈ w.opps, a.id = b.id → a = b)
    (hconvu : ∀ eid, convStep cfg w wo = .ok (some eid) →
      toString eid ≠ toString wo.id ∧
      (∀ a ∈ w.opps, ∀ b ∈ w.opps, a.contactId = b.contactId →
        a.crmJobId = some (toString eid) → b.crmJobId = some (toString eid) →
        a = b) ∧
      (∀ a ∈ w.opps, ∀ b ∈ w.opps, a.contactId = b.contactId →
        a.crmJobId = some (toString eid) →
        b.crmJobId ≠ some (toString wo.id))) :
    ((sync_work_order_to_ghl cfg
        (applyEffects w (sync_work_order_to_ghl cfg w wo).2) wo).2.filter
      isOppMutation) = [] := by
  cases hcv : convStep cfg w wo with
  | error u =>
    have he : sync_work_order_to_ghl cfg w wo =
        (.error "conversion check raised", []) := by
      simp [sync_work_order_to_ghl, hcv]
    rw [show applyEffects w (sync_work_order_to_ghl cfg w wo).2 = w from by
      rw [he]; rfl]
    rw [he]; rfl
  | ok conv =>
    cases hst : pyDictGet (sf_to_ghl_stage_map cfg.settings) wo.status with
    | none =>
      have he : sync_work_order_to_ghl cfg w wo = (.skippedUnmappedStatus, []) := by
        simp [sync_work_order_to_ghl, hcv, hst]
      rw [show applyEffects w (sync_work_order_to_ghl cfg w wo).2 = w from by
        rw [he]; rfl]
      rw [he]; rfl
    | some g =>
      by_cases hg0 : g.isEmpty
      · have he : sync_work_order_to_ghl cfg w wo =
            (.skippedUnmappedStatus, []) := by
          simp [sync_work_order_to_ghl, hcv, hst, hg0]
        rw [show applyEffects w (sync_work_order_to_ghl cfg w wo).2 = w from by
          rw [he]; rfl]
        rw [he]; rfl
      · have hg : g.isEmpty = false := by simpa using hg0
        cases hcust : w.sfCustomers.find? (fun c => c.id == wo.customer_id) with
        | none =>
          have he : sync_work_order_to_ghl cfg w wo =
              (.error "customer does not exist", []) := by
            simp [sync_work_order_to_ghl, hcv, hst, hg, hcust]
          rw [show applyEffects w (sync_work_order_to_ghl cfg w wo).2 = w from by
            rw [he]; rfl]
          rw [he]; rfl
        | some cust =>
          by_cases hinfo0 : (optStrFalsy cust.phone && optStrFalsy cust.email) = true
          · have he : sync_work_order_to_ghl cfg w wo =
                (.skippedNoContactInfo,
                 [Effect.slackNotify "sync_work_order_to_ghl"]) := by
              simp [sync_work_order_to_ghl, hcv, hst, hg, hcust, hinfo0]
            rw [show applyEffects w (sync_work_order_to_ghl cfg w wo).2 = w from by
              rw [he]; rfl]
            rw [he]; rfl
          · have hinfo : (optStrFalsy cust.phone && optStrFalsy cust.email) = false := by
              simpa using hinfo0
            rcases resolve_contact_shape cfg w cust with ⟨c0, hlk, hrc⟩ | ⟨hlk, hrc⟩
            · -- contact found on the first call
              by_cases hcid0 : c0.id.isEmpty
              · have he : sync_work_order_to_ghl cfg w wo =
                    (.error "failed to get GHL contact ID",
                     [Effect.updateContactField c0.id
                       cfg.settings.ghl_sf_customer_id_field
                       (toString cust.id)]) := by
                  simp [sync_work_order_to_ghl, hcv, hst, hg, hcust, hinfo, hrc,
                    hcid0]
                rw [show applyEffects w (sync_work_order_to_ghl cfg w wo).2 = w
                    from by rw [he]; rfl]
                rw [he]; rfl
              · have hcid : c0.id.isEmpty = false := by simpa using hcid0
                exact sync_repeat_core cfg w w wo conv g cust c0.id
                  [Effect.updateContactField c0.id
                    cfg.settings.ghl_sf_customer_id_field (toString cust.id)]
                  hids (fun eid h => hconvu eid (h ▸ hcv)) hcv hst hg hcust hinfo
                  hrc hcid rfl rfl rfl rfl rfl
                  (fun X hc hu => by
                    rw [resolve_contact_congr cfg w X cust hc hu, hrc])
            · -- contact created by upsert on the first call
              by_cases hcid0 : w.upsertResultId.isEmpty
              · have he : sync_work_order_to_ghl cfg w wo =
                    (.error "failed to get GHL contact ID",
                     [Effect.upsertContact (optTruthy cust.phone)
                       (optTruthy cust.email)]) := by
                  simp [sync_work_order_to_ghl, hcv, hst, hg, hcust, hinfo, hrc,
                    hcid0]
                rw [show applyEffects w (sync_work_order_to_ghl cfg w wo).2 =
                    { w with contacts := w.contacts ++
                        [⟨w.upsertResultId, optTruthy cust.phone,
                          optTruthy cust.email⟩] } from by rw [he]; rfl]
                have hcv2 : convStep cfg
                    { w with contacts := w.contacts ++
                        [⟨w.upsertResultId, optTruthy cust.phone,
                          optTruthy cust.email⟩] } wo = .ok conv :=
                  (convStep_congr cfg w _ wo rfl).trans hcv
                have hcust2 :
                    ({ w with contacts := w.contacts ++
                        [⟨w.upsertResultId, optTruthy cust.phone,
                          optTruthy cust.email⟩] } : World).sfCustomers.find?
                      (fun c => c.id == wo.customer_id) = some cust := hcust
                have hlk2 := lookup_contact_after_upsert w cust w.upsertResultId
                  hlk hinfo
                have hrc2' : resolve_contact cfg
                    { w with contacts := w.contacts ++
                        [⟨w.upsertResultId, optTruthy cust.phone,
                          optTruthy cust.email⟩] } cust =
                    (w.upsertResultId,
                     [Effect.updateContactField w.upsertResultId
                       cfg.settings.ghl_sf_customer_id_field
                       (toString cust.id)]) := by
                  unfold resolve_contact
                  rw [hlk2]
                have he2 : sync_work_order_to_ghl cfg
                    { w with contacts := w.contacts ++
                        [⟨w.upsertResultId, optTruthy cust.phone,
                          optTruthy cust.email⟩] } wo =
                    (.error "failed to get GHL contact ID",
                     [Effect.updateContactField w.upsertResultId
                       cfg.settings.ghl_sf_customer_id_field
                       (toString cust.id)]) := by
                  simp [sync_work_order_to_ghl, hcv2, hst, hg, hcust2, hinfo,
                    hrc2', hcid0]
                rw [he2]; rfl
              · have hcid : w.upsertResultId.isEmpty = false := by simpa using hcid0
                exact sync_repeat_core cfg w
                  { w with contacts := w.contacts ++
                      [⟨w.upsertResultId, optTruthy cust.phone,
                        optTruthy cust.email⟩] } wo conv g cust w.upsertResultId
                  [Effect.upsertContact (optTruthy cust.phone)
                    (optTruthy cust.email)]
                  hids (fun eid h => hconvu eid (h ▸ hcv)) hcv hst hg hcust hinfo
                  hrc hcid rfl rfl rfl rfl rfl
                  (fun X hc hu => by
                    have hlkX : lookup_contact X cust =
                        some ⟨w.upsertResultId, optTruthy cust.phone,
                          optTruthy cust.email⟩ := by
                      rw [lookup_contact_congr
                        { w with contacts := w.contacts ++
                            [⟨w.upsertResultId, optTruthy cust.phone,
                              optTruthy cust.email⟩] } X cust hc]
                      exact lookup_contact_after_upsert w cust w.upsertResultId
                        hlk hinfo
                    unfold resolve_contact
                    rw [hlkX])

/-- C3 counterexample: two identical invocations on a fully synced work
order — the second still issues a mutating Target call (the contact
custom-field write re-tagging the contact with the Source customer id), so
"zero mutating Target calls on the second invocation" is false. -/
theorem claim3_counterexample :
    ((sync_work_order_to_ghl cfg5
        (applyEffects
          ⟨[⟨3, "Carol", "2024-03-01T10:00:00+00:00",
              [⟨some "Carol", some "C", some true, [⟨some "(303) 555-1234"⟩], []⟩]⟩],
           some [], [⟨"c1", some "3035551234", none⟩],
           [⟨"o1", "c1", "stg_stop", some "31"⟩], "u", "onew"⟩
          (sync_work_order_to_ghl cfg5
            ⟨[⟨3, "Carol", "2024-03-01T10:00:00+00:00",
                [⟨some "Carol", some "C", some true, [⟨some "(303) 555-1234"⟩], []⟩]⟩],
             some [], [⟨"c1", some "3035551234", none⟩],
             [⟨"o1", "c1", "stg_stop", some "31"⟩], "u", "onew"⟩
            (.estimate ⟨31, "E31", 3, "Carol", "Estimate Won",
              "2024-03-01T10:00:00+00:00"⟩)).2)
        (.estimate ⟨31, "E31", 3, "Carol", "Estimate Won",
          "2024-03-01T10:00:00+00:00"⟩)).2.filter isTargetMutation) ≠ [] := by
  decide

/-- C3 witness: on the same synced scenario the second invocation issues no
opportunity mutation. -/
theorem claim3_witness :
    ((sync_work_order_to_ghl cfg5
        (applyEffects
          ⟨[⟨3, "Carol", "2024-03-01T10:00:00+00:00",
              [⟨some "Carol", some "C", some true, [⟨some "(303) 555-1234"⟩], []⟩]⟩],
           some [], [⟨"c1", some "3035551234", none⟩],
           [⟨"o1", "c1", "stg_stop", some "31"⟩], "u", "onew"⟩
          (sync_work_order_to_ghl cfg5
            ⟨[⟨3, "Carol", "2024-03-01T10:00:00+00:00",
                [⟨some "Carol", some "C", some true, [⟨some "(303) 555-1234"⟩], []⟩]⟩],
             some [], [⟨"c1", some "3035551234", none⟩],
             [⟨"o1", "c1", "stg_stop", some "31"⟩], "u", "onew"⟩
            (.estimate ⟨31, "E31", 3, "Carol", "Estimate Won",
              "2024-03-01T10:00:00+00:00"⟩)).2)
        (.estimate ⟨31, "E31", 3, "Carol", "Estimate Won",
          "2024-03-01T10:00:00+00:00"⟩)).2.filter isOppMutation) = [] :=
  claim3_amended cfg5
    ⟨[⟨3, "Carol", "2024-03-01T10:00:00+00:00",
        [⟨some "Carol", some "C", some true, [⟨some "(303) 555-1234"⟩], []⟩]⟩],
     some [], [⟨"c1", some "3035551234", none⟩],
     [⟨"o1", "c1", "stg_stop", some "31"⟩], "u", "onew"⟩
    (.estimate ⟨31, "E31", 3, "Carol", "Estimate Won",
      "2024-03-01T10:00:00+00:00"⟩)
    (by decide)
    (by intro eid h; exact Option.noConfusion (Except.ok.inj h))
